import Mathlib

/-!
Verification of the multi-source news clustering and bullet-point synthesis
pipeline (`utils/multi_source_fetcher.py` and `utils/news_generalizer.py`).

Modelling conventions:
* Python `float` similarity/ratio values are modelled as rationals (`ℚ`); the
  quantities involved are quotients of small natural numbers, and every
  threshold comparison in the source behaves identically on exact rationals.
* Python strings are modelled as Lean `String`s over their ASCII fragment
  (regex classes `\w`, `\d`, `[a-z]` are read as their ASCII meaning).
* External capabilities (the BeautifulSoup text extractor, `urllib`'s
  `urljoin`, the network, and the generative model) are parameters of the
  model: the pipeline's own logic is embedded from the source, while the
  collaborators excluded by the specification stay abstract.
* `dict.get(key, default)` on keys that the producing code always populates is
  modelled as plain field access.
-/

/-- ASCII model of the regex class `\w` used throughout the module:
letters, digits and underscore. -/
def wordChar (c : Char) : Bool := c.isAlphanum || c = '_'

/-- Python `s.lower()` (ASCII model).  Defined structurally on the character
list so that every proof obligation evaluates inside the kernel. -/
def strLower (s : String) : String := String.mk (s.data.map Char.toLower)

/-- Python `s.strip()` (ASCII whitespace model). -/
def strTrim (s : String) : String :=
  String.mk (((s.data.dropWhile Char.isWhitespace).reverse.dropWhile
    Char.isWhitespace).reverse)

/-- Python `s[:n]` on strings (character slicing). -/
def strTake (s : String) (n : Nat) : String := String.mk (s.data.take n)

/-- Maximal runs of characters satisfying `p`, accumulator form:
`runsAux p l acc` scans `l` with the (reversed) current run `acc`. -/
def runsAux (p : Char → Bool) : List Char → List Char → List String
  | [], acc => if acc.isEmpty then [] else [String.mk acc.reverse]
  | c :: cs, acc =>
      if p c then runsAux p cs (c :: acc)
      else if acc.isEmpty then runsAux p cs []
      else String.mk acc.reverse :: runsAux p cs []

/-- `re.findall(r'\w+', s)`: the maximal word-character runs of `s`,
in order. `re.findall(r'\b\w+\b', s)` yields the same list. -/
def wordTokens (s : String) : List String := runsAux wordChar s.data []

/-- Python `s.split()` with no argument: maximal non-whitespace runs. -/
def wsTokens (s : String) : List String :=
  runsAux (fun c => !c.isWhitespace) s.data []

/-- The set of word tokens of a lowercased title, as built by
`_calculate_similarity`: `set(re.findall(r'\w+', title.lower()))`. -/
def titleWords (s : String) : Finset String := (wordTokens (strLower s)).toFinset

/-- `MultiSourceNewsFetcher._calculate_similarity` (multi_source_fetcher.py
355-367): Jaccard similarity of the lowercased word-token sets; `0.0` when
either side has no tokens (the trailing `if union else 0.0` guard is kept). -/
def calculate_similarity (title1 title2 : String) : ℚ :=
  let words1 := titleWords title1
  let words2 := titleWords title2
  if words1 = ∅ ∨ words2 = ∅ then 0
  else
    let inter := words1 ∩ words2
    let union := words1 ∪ words2
    if union = ∅ then 0 else (inter.card : ℚ) / (union.card : ℚ)

/-- The float comparison `_calculate_similarity(t1, t2) >= num/den`
cross-multiplied into natural arithmetic (all quantities are quotients of
small naturals, on which the float comparison is exact).  The pipeline
decides thresholds through this executable form; `simGe_iff` ties it to the
rational value. -/
def simGe (t1 t2 : String) (num den : Nat) : Bool :=
  let words1 := titleWords t1
  let words2 := titleWords t2
  if words1 = ∅ ∨ words2 = ∅ then decide (num = 0)
  else decide (num * (words1 ∪ words2).card ≤ (words1 ∩ words2).card * den)

/-- The float comparison `_calculate_similarity(t1, t2) > 0.5`
cross-multiplied into natural arithmetic. -/
def simGtHalf (t1 t2 : String) : Bool :=
  let words1 := titleWords t1
  let words2 := titleWords t2
  if words1 = ∅ ∨ words2 = ∅ then false
  else decide ((words1 ∪ words2).card < 2 * (words1 ∩ words2).card)

/-- The similarity value as an exact numerator/denominator pair (`(0, 1)`
for the zero cases), used where the code stores the float itself. -/
def simPair (t1 t2 : String) : Nat × Nat :=
  let words1 := titleWords t1
  let words2 := titleWords t2
  if words1 = ∅ ∨ words2 = ∅ then (0, 1)
  else ((words1 ∩ words2).card, (words1 ∪ words2).card)

/-- `≤` on similarity pairs (cross-multiplied; denominators positive). -/
def pairLe (p q : Nat × Nat) : Bool := decide (p.1 * q.2 ≤ q.1 * p.2)

/-- One RSS article dictionary as produced by
`MultiSourceNewsFetcher.fetch_all_feeds` (multi_source_fetcher.py 76-92). -/
structure Article where
  title : String
  link : String
  summary : String
  description : String
  /-- `fetch_all_feeds` never stores a `content` key; `article.get('content', '')`
  therefore reads as the empty string unless a caller injected one. -/
  content : String := ""
  published : String := ""
  source : String
  source_url : String := ""
  image : Option String := none
deriving DecidableEq, Repr

/-- Worker for `group_by_topic`: walk the indexed article list, keeping the
set of already-used indices.  For a fresh seed, every later unused article
whose title similarity reaches the threshold `thNum/thDen` joins the group
and is marked used; the group is emitted only when it has at least two
members. -/
def groupByTopicAux (thNum thDen : Nat) : List (Nat × Article) → List Nat → List (List Article)
  | [], _ => []
  | (i, a) :: rest, used =>
      if used.contains i then groupByTopicAux thNum thDen rest used
      else
        let joined := rest.filter
          (fun p => !(used.contains p.1) && simGe a.title p.2.title thNum thDen)
        let group := a :: joined.map (·.2)
        let used' := (used ++ i :: joined.map (·.1))
        if 2 ≤ group.length then group :: groupByTopicAux thNum thDen rest used'
        else groupByTopicAux thNum thDen rest used'

/-- `MultiSourceNewsFetcher.group_by_topic` (multi_source_fetcher.py 765-789):
single-pass greedy clustering by title similarity, at threshold
`thNum/thDen` (the production call passes 0.25 = 1/4). -/
def group_by_topic (articles : List Article) (thNum thDen : Nat) : List (List Article) :=
  groupByTopicAux thNum thDen articles.enum []

/-- All members of a list have pairwise distinct `source` values. -/
def distinctSources (g : List Article) : Prop :=
  g.Pairwise (fun a b => a.source ≠ b.source)

instance (g : List Article) : Decidable (distinctSources g) := by
  unfold distinctSources; infer_instance

/-- Boolean substring test on character lists (Python's `needle in hay`). -/
def isSubCL (needle : List Char) : List Char → Bool
  | [] => needle.isEmpty
  | c :: t => needle.isPrefixOf (c :: t) || isSubCL needle t

/-- Python `needle in hay` on strings. -/
def strContains (hay needle : String) : Bool := isSubCL needle.data hay.data

/-- Python `s.startswith(p)`. -/
def strStarts (s p : String) : Bool := p.data.isPrefixOf s.data

/-- Case-insensitive prefix removal: consume `key` (given lowercased) from the
front of `l`, comparing each character lowercased; return the remainder,
with a bound used for termination. -/
def stripPrefixCI : (key : List Char) → (l : List Char) → Option { r : List Char // r.length ≤ l.length }
  | [], l => some ⟨l, Nat.le_refl _⟩
  | _ :: _, [] => none
  | k :: ks, c :: cs =>
      if c.toLower = k then
        match stripPrefixCI ks cs with
        | some ⟨r, h⟩ => some ⟨r, Nat.le_succ_of_le h⟩
        | none => none
      else none

/-- Try to match one of the regex alternatives `key` followed by `=` and at
least one digit at the head of `l` (the part after the `[?&]` separator),
case-insensitively; return what follows the digits.  Mirrors the alternation
semantics of `re.sub(r'[?&](w|width)=\d+', ...)` and its five siblings. -/
def matchParamTail : (keys : List String) → (l : List Char) → Option { r : List Char // r.length ≤ l.length }
  | [], _ => none
  | k :: ks, l =>
      match stripPrefixCI k.data l with
      | some ⟨'=' :: rest, h⟩ =>
          if (rest.takeWhile Char.isDigit).isEmpty then matchParamTail ks l
          else
            some ⟨rest.dropWhile Char.isDigit, by
              have h1 : (rest.dropWhile Char.isDigit).length ≤ rest.length :=
                (List.dropWhile_sublist _).length_le
              exact Nat.le_trans h1 (Nat.le_trans (Nat.le_succ _) h)⟩
      | _ => matchParamTail ks l

/-- One `re.sub(r'[?&](k₁|k₂|…)=\d+', '', url, flags=IGNORECASE)` pass:
left-to-right scan deleting every non-overlapping match.  Structural
recursion on a fuel bound (each step consumes at least one character, so
`fuel = l.length` never runs out; the fuel keeps the definition
kernel-reducible). -/
def stripParamFuel (keys : List String) : Nat → List Char → List Char
  | 0, l => l
  | _ + 1, [] => []
  | fuel + 1, c :: cs =>
      if c = '?' || c = '&' then
        match matchParamTail keys cs with
        | some ⟨rest, _⟩ => stripParamFuel keys fuel rest
        | none => c :: stripParamFuel keys fuel cs
      else c :: stripParamFuel keys fuel cs

/-- The scan of `stripParamFuel` at its always-sufficient fuel. -/
def stripParamAux (keys : List String) (l : List Char) : List Char :=
  stripParamFuel keys l.length l

/-- The six size-parameter patterns of `_upgrade_image_resolution`
(multi_source_fetcher.py 224-231), in application order. -/
def sizeParamPatterns : List (List String) :=
  [["w", "width"], ["h", "height"], ["s", "size"], ["resize"], ["scale"], ["quality"]]

/-- Apply the six `re.sub` size-parameter removals in order. -/
def stripSizeParams (l : List Char) : List Char :=
  sizeParamPatterns.foldl (fun acc keys => stripParamAux keys acc) l

/-- Python `s.replace(old, new, 1)`: replace the first occurrence only. -/
def replaceFirstL (old new : List Char) : List Char → List Char
  | [] => []
  | c :: cs =>
      if old.isPrefixOf (c :: cs) then new ++ (c :: cs).drop old.length
      else c :: replaceFirstL old new cs

/-- The CDN path-segment replacements of `_upgrade_image_resolution`
(multi_source_fetcher.py 237-247), in order. -/
def cdnReplacements : List (List Char × List Char) :=
  [("/thumb/".data, "/".data), ("/thumbnail/".data, "/".data), ("/small/".data, "/".data),
   ("/medium/".data, "/".data), ("/large/".data, "/".data),
   ("_thumb.".data, ".".data), ("_small.".data, ".".data),
   ("_medium.".data, ".".data), ("_large.".data, ".".data)]

/-- `for old, new in replacements: if old in url.lower(): url =
url.replace(old, new, 1).replace(old.upper(), new, 1); break`. -/
def applyCdnReplacements (l : List Char) : List (List Char × List Char) → List Char
  | [] => l
  | (old, new) :: rest =>
      if isSubCL old (l.map Char.toLower) then
        replaceFirstL (old.map Char.toUpper) new (replaceFirstL old new l)
      else applyCdnReplacements l rest

/-- `re.sub(r'[?&]+', '&', s)`: collapse every maximal run of `?`/`&`
characters to a single `&`.  The flag records whether the scan is inside a
run whose replacement `&` was already emitted. -/
def collapseSepsAux : Bool → List Char → List Char
  | _, [] => []
  | inRun, c :: cs =>
      if c = '?' || c = '&' then
        if inRun then collapseSepsAux true cs
        else '&' :: collapseSepsAux true cs
      else c :: collapseSepsAux false cs

/-- Python `s.rstrip('&?')`. -/
def rstripSeps (l : List Char) : List Char :=
  (l.reverse.dropWhile (fun c => c = '&' || c = '?')).reverse

/-- `MultiSourceNewsFetcher._upgrade_image_resolution`
(multi_source_fetcher.py 215-260). -/
def upgrade_image_resolution (image_url : String) : String :=
  if image_url = "" then image_url
  else
    let l := stripSizeParams image_url.data
    let l := applyCdnReplacements l cdnReplacements
    let l := collapseSepsAux false l
    let l := rstripSeps l
    -- `if upgraded_url.endswith('&'): upgraded_url = upgraded_url[:-1]`
    -- (unreachable after the rstrip, kept for fidelity)
    let l := if l.getLast? = some '&' then l.dropLast else l
    String.mk l

/-- `MultiSourceNewsFetcher._make_absolute_url` (multi_source_fetcher.py
195-213).  `urljoin` is `urllib.parse.urljoin`, an external collaborator kept
abstract; `base_url = ""` models both `None` and an empty link (both falsy). -/
def make_absolute_url (urljoin : String → String → String) (url : String)
    (base_url : String) : String :=
  if url = "" then url
  else if strStarts url "http://" || strStarts url "https://" then url
  else if strStarts url "//" then "https:" ++ url
  else if base_url ≠ "" then urljoin base_url url
  else url

/-- Origin tier of an image candidate in `_extract_image`. -/
inductive ImgTier | mediaContent | thumbnail | html
deriving DecidableEq, Repr

/-- A structured media reference of an RSS entry (`media_content` /
`media_thumbnail` element); absent width/height are 0, as produced by
`int(media.get('width', 0) or 0)`. -/
structure MediaRef where
  url : String := ""
  type : String := ""
  width : Nat := 0
  height : Nat := 0
deriving DecidableEq, Repr

/-- An `<img>` tag found by the HTML parser in the entry's summary. -/
structure ImgTag where
  src : String := ""
  dataSrc : String := ""
  dataLazySrc : String := ""
  width : Nat := 0
  height : Nat := 0
deriving DecidableEq, Repr

/-- A raw feed entry as `_extract_image` consumes it.  The HTML parsing of
the summary is the abstracted external collaborator: `summaryImgs` is the
list of `<img>` tags it finds (empty when the entry has no summary). -/
structure FeedEntry where
  link : String := ""
  mediaContent : List MediaRef := []
  mediaThumbnail : List MediaRef := []
  summaryImgs : List ImgTag := []
deriving DecidableEq, Repr

/-- One scored entry of the `images_found` list in `_extract_image`. -/
structure ImageCandidate where
  url : String
  size : Nat
  tier : ImgTier
  width : Nat
  height : Nat
deriving DecidableEq, Repr

/-- The Python sort key `(x[2] == 'media_content', x[2] == 'thumbnail', x[1])`
encoded as a triple of naturals (`False < True`). -/
def imgKey (c : ImageCandidate) : Nat × Nat × Nat :=
  ((if c.tier = ImgTier.mediaContent then 1 else 0),
   (if c.tier = ImgTier.thumbnail then 1 else 0), c.size)

/-- Lexicographic `≤` on the sort key. -/
def imgKeyLe (x y : Nat × Nat × Nat) : Bool :=
  x.1 < y.1 || (x.1 = y.1 && (x.2.1 < y.2.1 || (x.2.1 = y.2.1 && x.2.2 ≤ y.2.2)))

/-- `MultiSourceNewsFetcher._extract_image` (multi_source_fetcher.py
128-193): collect candidates from the three tiers, absolutize each URL,
stably sort descending by `(is media_content, is thumbnail, size)` and pick
the head, upgrading thumbnails and small images. -/
def extract_image (urljoin : String → String → String) (entry : FeedEntry) :
    Option String :=
  let article_link := entry.link
  let mc := entry.mediaContent.filterMap (fun m =>
    if strStarts m.type "image" then
      if m.url ≠ "" then
        some { url := make_absolute_url urljoin m.url article_link,
               size := if m.width ≠ 0 ∧ m.height ≠ 0 then m.width * m.height else 100000,
               tier := ImgTier.mediaContent, width := m.width, height := m.height : ImageCandidate }
      else none
    else none)
  let th := entry.mediaThumbnail.filterMap (fun m =>
    if m.url ≠ "" then
      some { url := make_absolute_url urljoin m.url article_link,
             size := if m.width ≠ 0 ∧ m.height ≠ 0 then m.width * m.height else 50000,
             tier := ImgTier.thumbnail, width := m.width, height := m.height : ImageCandidate }
    else none)
  let ht := entry.summaryImgs.filterMap (fun img =>
    let src := if img.src ≠ "" then img.src
      else if img.dataSrc ≠ "" then img.dataSrc else img.dataLazySrc
    if src ≠ "" then
      if 0 < img.width ∧ 0 < img.height ∧ (img.width < 100 ∨ img.height < 100) then none
      else
        some { url := make_absolute_url urljoin src article_link,
               size := if img.width ≠ 0 ∧ img.height ≠ 0 then img.width * img.height else 30000,
               tier := ImgTier.html, width := img.width, height := img.height : ImageCandidate }
    else none)
  let images_found := mc ++ th ++ ht
  match images_found.insertionSort (fun a b => imgKeyLe (imgKey b) (imgKey a) = true) with
  | [] => none
  | best :: _ =>
      if best.tier = ImgTier.thumbnail ∨ (0 < best.width ∧ best.width < 400) then
        some (upgrade_image_resolution best.url)
      else some best.url

/-- `MultiSourceNewsFetcher._get_reliable_image_for_article`
(multi_source_fetcher.py 262-313): score the group's entry images by URL
patterns, pick the stably-highest and upgrade its resolution. -/
def get_reliable_image_for_article (urljoin : String → String → String)
    (article_group : List Article) : Option String :=
  let all_images := article_group.filterMap (fun article =>
    match article.image with
    | none => none
    | some image_url =>
        if image_url = "" then none
        else
          let image_url :=
            if article.link ≠ "" then make_absolute_url urljoin image_url article.link
            else image_url
          let url_lower := strLower image_url
          let score : Int :=
            (if ["cdn", "static", "media", "assets"].any (strContains url_lower) then 10 else 0)
            + (if ["large", "full", "original", "high"].any (strContains url_lower) then 20
               else if ["thumb", "small", "medium"].any (strContains url_lower) then -5 else 0)
            + (if [".jpg", ".jpeg", ".png", ".webp"].any (strContains url_lower) then 5 else 0)
          some (image_url, score, article.source))
  match all_images.insertionSort (fun a b => b.2.1 ≤ a.2.1) with
  | [] => none
  | best :: _ => some (upgrade_image_resolution best.1)

/-- Python `' '.join(s.split())`: collapse whitespace runs and trim. -/
def collapseWs (s : String) : String := " ".intercalate (wsTokens s)

/-- `re.split(r'[.!?]\s+', s)`: split where a sentence punctuation character
is followed by at least one whitespace character; the punctuation and the
whitespace run are consumed.  `skip` marks that the scan is inside the
whitespace run of a just-taken separator; `acc` is the reversed current
token. -/
def splitSentencesAux : Bool → List Char → List Char → List (List Char)
  | _, [], acc => [acc.reverse]
  | skip, c :: cs, acc =>
      if skip ∧ c.isWhitespace then splitSentencesAux true cs acc
      else
        if (c = '.' ∨ c = '!' ∨ c = '?') ∧ (cs.head?.elim false Char.isWhitespace) then
          acc.reverse :: splitSentencesAux true cs []
        else splitSentencesAux false cs (c :: acc)

/-- `re.split(r'[.!?]\s+', s)` on strings. -/
def splitSentences (s : String) : List String :=
  (splitSentencesAux false s.data []).map String.mk

/-- The sentence-accumulation loop of `_summarize_content`
(multi_source_fetcher.py 393-400): append trimmed sentences (length ≥ 5)
as `sentence + ". "` while the budget holds; stop at the first overflow. -/
def buildSummary (max_length : Nat) : List String → String → String
  | [], acc => acc
  | s :: rest, acc =>
      let s := strTrim s
      if s = "" ∨ s.length < 5 then buildSummary max_length rest acc
      else if acc.length + s.length + 2 ≤ max_length then
        buildSummary max_length rest (acc ++ s ++ ". ")
      else acc

/-- `MultiSourceNewsFetcher._summarize_content` (multi_source_fetcher.py
369-410).  `strip` is the abstract `BeautifulSoup(...).get_text()`
collaborator (the `except: pass` branch keeps the content unchanged, which a
caller models with `strip = id`). -/
def summarize_content (strip : String → String) (content : String)
    (max_length : Nat) : String :=
  if content = "" then ""
  else
    let content := collapseWs (strip content)
    if content.length ≤ max_length then content
    else
      let sentences := splitSentences content
      let summary := buildSummary max_length sentences ""
      let summary :=
        if summary = "" ∨ summary.length < 15 then
          let words := wsTokens (strTake content max_length)
          if 1 < words.length then " ".intercalate words.dropLast ++ "..."
          else strTake content max_length ++ "..."
        else summary
      strTrim summary

/-- One per-source summary record built by `fetch_multi_source_article`
(multi_source_fetcher.py 893-897). -/
structure SourceSummary where
  source : String
  summary : String
  url : String
deriving DecidableEq, Repr

/-- The stopword list of the fallback extractor (multi_source_fetcher.py
720-725). -/
def fallbackStopWords : List String :=
  ["the", "and", "for", "are", "but", "not", "you", "all", "can", "her", "was",
   "one", "our", "out", "day", "get", "has", "him", "his", "how", "its", "may",
   "new", "now", "old", "see", "two", "way", "who", "did", "let", "put", "say",
   "she", "too", "use", "from", "into", "that", "with", "have", "this", "they"]

/-- `collections.Counter` over a token list: an association list ordered by
first occurrence (Python dicts preserve insertion order). -/
def wordCounter (ws : List String) : List (String × Nat) :=
  ws.foldl (fun acc w =>
    if acc.any (fun p => p.1 == w) then
      acc.map (fun p => if p.1 == w then (p.1, p.2 + 1) else p)
    else acc ++ [(w, 1)]) []

/-- `full_text` of the fallback extractor (multi_source_fetcher.py 700-710):
HTML-strip and whitespace-collapse each non-empty summary, join with spaces. -/
def combinedFullText (strip : String → String) (source_summaries : List SourceSummary) : String :=
  " ".intercalate (source_summaries.filterMap (fun s =>
    if s.summary = "" then none
    else
      let cleaned := collapseWs (strip s.summary)
      if cleaned = "" then none else some cleaned))

/-- The candidate sentences of the fallback extractor
(multi_source_fetcher.py 714-715): punctuation-split, trimmed, length in
[30, 200]. -/
def fallbackCandidates (full_text : String) : List String :=
  ((splitSentences full_text).map strTrim).filter
    (fun s => decide (30 ≤ s.length) && decide (s.length ≤ 200))

/-- The corpus word-frequency table (multi_source_fetcher.py 719-727):
tokens of the lowercased full text, keeping length > 3 and non-stopwords. -/
def corpusWordFreq (full_text : String) : List (String × Nat) :=
  wordCounter ((wordTokens (strLower full_text)).filter
    (fun w => decide (3 < w.length) && !(fallbackStopWords.contains w)))

/-- The sentence score of the fallback extractor (multi_source_fetcher.py
730-740): +2 for a digit, +1 for length in [60, 160], plus the frequency of
every table word that occurs as a substring (`word in lower`) of the
lowercased sentence. -/
def sentenceScore (freq : List (String × Nat)) (sentence : String) : Nat :=
  let lower := strLower sentence
  let base := (if sentence.data.any Char.isDigit then 2 else 0)
    + (if 60 ≤ sentence.length ∧ sentence.length ≤ 160 then 1 else 0)
  freq.foldl (fun sc p => if isSubCL p.1.data lower.data then sc + p.2 else sc) base

/-- `scored_sentences` before sorting (multi_source_fetcher.py 729-740). -/
def fallbackScored (full_text : String) : List (Nat × String) :=
  (fallbackCandidates full_text).map
    (fun s => (sentenceScore (corpusWordFreq full_text) s, s))

/-- `scored_sentences.sort(reverse=True, key=lambda x: x[0])`: a stable
descending sort on the score (`insertionSort` with a non-strict total
relation is stable, hence agrees with Python's stable sort). -/
def fallbackSorted (full_text : String) : List (Nat × String) :=
  (fallbackScored full_text).insertionSort (fun a b => b.1 ≤ a.1)

/-- The word-token set of one bullet sentence:
`set(re.findall(r'\b\w+\b', sentence.lower()))`. -/
def bulletWords (s : String) : Finset String := (wordTokens (strLower s)).toFinset

/-- The duplicate test of the selection loop (multi_source_fetcher.py
750-755): the candidate's token set overlaps some already-selected set by a
ratio of at least 0.55 (`|A∩B| / (max(|A|,|B|) or 1)`), float comparison
cross-multiplied into natural arithmetic. -/
def overlapDuplicate (words_set : Finset String) (seen : List (Finset String)) : Bool :=
  seen.any (fun sn =>
    let m := max words_set.card sn.card
    let m := if m = 0 then 1 else m
    decide (11 * m ≤ 20 * (words_set ∩ sn).card))

/-- The bullet-selection loop (multi_source_fetcher.py 744-761): walk the
sorted sentences, skip token-free and overlapping ones, stop at
`max_bullets`. -/
def selectBullets (max_bullets : Nat) :
    List (Nat × String) → List String → List (Finset String) → List String
  | [], bullets, _ => bullets
  | (_, sentence) :: rest, bullets, seen =>
      let words_set := bulletWords sentence
      if words_set = ∅ then selectBullets max_bullets rest bullets seen
      else if overlapDuplicate words_set seen then selectBullets max_bullets rest bullets seen
      else
        let bullets' := bullets ++ [sentence]
        let seen' := seen ++ [words_set]
        if max_bullets ≤ bullets'.length then bullets'
        else selectBullets max_bullets rest bullets' seen'

/-- The deterministic fallback path of `_extract_generalized_bullets`
(multi_source_fetcher.py 699-763). -/
def fallbackBullets (strip : String → String) (source_summaries : List SourceSummary)
    (max_bullets : Nat) : List String :=
  let full_text := combinedFullText strip source_summaries
  if full_text = "" then []
  else if (fallbackCandidates full_text).isEmpty then []
  else (selectBullets max_bullets (fallbackSorted full_text) [] []).take max_bullets

/-- The post-parse filter and cap of `_generate_bullets_with_gemini`
(multi_source_fetcher.py 648-676).  The response-text line cleaning
(numbering/markdown removal) is folded into the abstract generative
collaborator, which yields the cleaned candidate lines; the module's own
length filter, emptiness handling and 7-bullet cap are kept.  An API failure
is a collaborator yielding no usable lines. -/
def geminiBullets (cleaned_lines : List String) : List String :=
  ((cleaned_lines.filter (fun b => 30 < b.length)).take 7)

/-- `MultiSourceNewsFetcher._extract_generalized_bullets`
(multi_source_fetcher.py 684-763): generative path when an API key is
configured and yields bullets, deterministic fallback otherwise. -/
def extract_generalized_bullets (strip : String → String) (gemini_api_key : String)
    (gemini : List SourceSummary → String → List String)
    (source_summaries : List SourceSummary) (max_bullets : Nat) (title : String) :
    List String :=
  if source_summaries.isEmpty then []
  else if gemini_api_key ≠ "" then
    let gb := geminiBullets (gemini source_summaries title)
    if gb.isEmpty then fallbackBullets strip source_summaries max_bullets else gb
  else fallbackBullets strip source_summaries max_bullets

/-- One ranked story of `analyze_available_stories`
(multi_source_fetcher.py 829-834). -/
structure CandidateStory where
  group : List Article
  title : String
  source_count : Nat
  /-- the float `max_similarity` kept as its exact numerator/denominator -/
  max_similarity : Nat × Nat
deriving DecidableEq, Repr

/-- `MultiSourceNewsFetcher.analyze_available_stories`
(multi_source_fetcher.py 791-846), with the already-fetched article list as
input (feed fetching is network I/O).  A group is kept when no excluded
title is more than 0.5-similar to its seed title and it spans at least two
distinct sources; kept groups are stably sorted by
`(-source_count, max_similarity)`. -/
def analyze_available_stories (articles : List Article) (exclude_titles : List String) :
    List CandidateStory :=
  if articles.isEmpty then []
  else
    let groups := group_by_topic articles 1 4
    if groups.isEmpty then []
    else
      let available := groups.filterMap (fun group =>
        let main_title := ((group.head?).map (fun a => a.title)).getD ""
        let source_count : Nat := (group.map (fun a => a.source)).dedup.length
        let is_new := !(exclude_titles.any (fun t => simGtHalf main_title t))
        let max_similarity := exclude_titles.foldl
          (fun m t => if pairLe (simPair main_title t) m then m
            else simPair main_title t) (0, 1)
        if is_new && decide (2 ≤ source_count) then
          some { group := group, title := main_title, source_count := source_count,
                 max_similarity := max_similarity }
        else none)
      available.insertionSort (fun a b =>
        b.source_count < a.source_count
        ∨ (a.source_count = b.source_count
            ∧ pairLe a.max_similarity b.max_similarity = true))

/-- The per-group summary collection loop of `fetch_multi_source_article`
(multi_source_fetcher.py 876-915): one summary per first-seen source, from
the first non-empty of summary/description/content/title, kept when both the
raw text and its 200-character summarization are longer than 10 trimmed
characters.  (The loop's parallel `images` list is dead code: the final
photo is recomputed by `_get_reliable_image_for_article`.) -/
def buildSourceSummaries (strip : String → String) :
    List Article → List String → List SourceSummary
  | [], _ => []
  | article :: rest, seen =>
      if seen.contains article.source then buildSourceSummaries strip rest seen
      else
        let seen' := seen ++ [article.source]
        let summary :=
          if article.summary ≠ "" then article.summary
          else if article.description ≠ "" then article.description
          else if article.content ≠ "" then article.content
          else article.title
        if summary ≠ "" ∧ 10 < (strTrim summary).length then
          let summarized := summarize_content strip summary 200
          if summarized ≠ "" ∧ 10 < (strTrim summarized).length then
            { source := article.source, summary := summarized, url := article.link } ::
              buildSourceSummaries strip rest seen'
          else buildSourceSummaries strip rest seen'
        else buildSourceSummaries strip rest seen'

/-- The source summaries collected for one story group. -/
def source_summaries_of (strip : String → String) (group : List Article) :
    List SourceSummary :=
  buildSourceSummaries strip group []

/-- Phase 2 of `fetch_multi_source_article` (multi_source_fetcher.py
864-926): try the ranked stories in order and keep the first with at least
two valid summaries. -/
def firstViableStory (strip : String → String) :
    List CandidateStory → Option (CandidateStory × List SourceSummary)
  | [] => none
  | st :: rest =>
      let ss := source_summaries_of strip st.group
      if 2 ≤ ss.length then some (st, ss) else firstViableStory strip rest

instance : Inhabited Article :=
  ⟨{ title := "", link := "", summary := "", description := "", source := "" }⟩

/-- The synthesized article returned by `fetch_multi_source_article`
(multi_source_fetcher.py 960-968).  The `content` field's
`json.dumps({'bullets': …, 'sources': …})` payload is kept structured
(`content_bullets`, `content_sources`) instead of serialized. -/
structure SynthesizedArticle where
  title : String
  content_bullets : List String
  content_sources : List (String × String)
  summary : String
  photo : Option String
  source_url : String
  bullets : List String
  source_count : Nat
deriving DecidableEq, Repr

/-- `MultiSourceNewsFetcher.fetch_multi_source_article`
(multi_source_fetcher.py 848-968), the orchestrator.  `strip` is the HTML
text extractor, `urljoin` the URL resolver, `gemini_api_key`/`gemini` the
generative collaborator, `articles` the already-fetched feed entries. -/
def fetch_multi_source_article (strip : String → String)
    (urljoin : String → String → String) (gemini_api_key : String)
    (gemini : List SourceSummary → String → List String)
    (articles : List Article) (exclude_titles : List String) :
    Option SynthesizedArticle :=
  let available_stories := analyze_available_stories articles exclude_titles
  if available_stories.isEmpty then none
  else
    match firstViableStory strip (available_stories.take 5) with
    | none => none
    | some (story, source_summaries) =>
        let current_group := story.group
        let main_article := current_group.headI
        let article_title := main_article.title
        let bullet_points :=
          extract_generalized_bullets strip gemini_api_key gemini source_summaries 7 article_title
        if bullet_points.isEmpty ∨ bullet_points.length < 2 then none
        else
          let main_image :=
            if current_group.isEmpty then none
            else get_reliable_image_for_article urljoin current_group
          let title :=
            if main_article.title = "" ∨ (strTrim main_article.title).length < 10 then
              "News Story from " ++ toString source_summaries.length ++ " Sources"
            else main_article.title
          some { title := title,
                 content_bullets := bullet_points,
                 content_sources := source_summaries.map (fun s => (s.source, s.url)),
                 summary := "Coverage from " ++ toString source_summaries.length ++ " sources",
                 photo := main_image,
                 source_url := main_article.link,
                 bullets := bullet_points,
                 source_count := source_summaries.length }

/-! The second orchestrator, `utils/news_generalizer.py`. -/

/-- One parsed feed entry of `_fetch_rss_entries` (news_generalizer.py
120-125); appended only with non-empty title and link. -/
structure GEntry where
  title : String
  link : String
  summary : String
  domain : String
deriving DecidableEq, Repr

/-- The stopword set of `_extract_keywords` (news_generalizer.py 57-61). -/
def ngStopWords : List String :=
  ["this", "that", "with", "from", "have", "been", "will", "news", "says",
   "could", "would", "should", "what", "when", "where", "which", "who",
   "there", "their", "these", "those", "about", "after", "before", "more"]

/-- `_extract_keywords` (news_generalizer.py 54-62):
`re.findall(r'\b[a-z]{4,}\b', text.lower())` keeps the maximal word-character
runs made only of lowercase letters with length ≥ 4; drop stopwords, cap at
6. -/
def extract_keywords (text : String) : List String :=
  (((wordTokens (strLower text)).filter
      (fun t => decide (4 ≤ t.length) && t.data.all Char.isLower)).filter
    (fun w => !(ngStopWords.contains w))).take 6

/-- The inner loop of `_group_articles_by_topic` (news_generalizer.py
164-175): scan the first 40 entries, adding any unchecked entry sharing at
least one keyword with the seed, stopping at 3 members. -/
def growGroup (seed_keywords : Finset String) :
    List (Nat × GEntry) → List Nat → List GEntry → List GEntry
  | [], _, group => group
  | (idx, other) :: rest, checked, group =>
      if checked.contains idx then growGroup seed_keywords rest checked group
      else
        let other_keywords := (extract_keywords other.title).toFinset
        if 1 ≤ (seed_keywords ∩ other_keywords).card then
          let group' := group ++ [other]
          if 3 ≤ group'.length then group'
          else growGroup seed_keywords rest (checked ++ [idx]) group'
        else growGroup seed_keywords rest checked group

/-- The seed loop of `_group_articles_by_topic` (news_generalizer.py
155-178): try the first 15 entries as seeds, returning the first group that
reaches `min_group_size`. -/
def findSeedGroup (entries : List GEntry) (min_group_size : Nat) :
    List (Nat × GEntry) → Option (List GEntry)
  | [] => none
  | (seed_idx, seed) :: rest =>
      let seed_keywords := (extract_keywords seed.title).toFinset
      if seed_keywords.card < 1 then findSeedGroup entries min_group_size rest
      else
        let group := growGroup seed_keywords (entries.enum.take 40) [seed_idx] [seed]
        if min_group_size ≤ group.length then some group
        else findSeedGroup entries min_group_size rest

/-- The domain-distinct fallback of `_group_articles_by_topic`
(news_generalizer.py 180-190): first two of the first ten entries with
non-empty, pairwise-new domains. -/
def fallbackPairGroup : List GEntry → List String → List GEntry → Option (List GEntry)
  | [], _, _ => none
  | e :: rest, seen_domains, acc =>
      if e.domain ≠ "" ∧ ¬ seen_domains.contains e.domain then
        let acc' := acc ++ [e]
        if 2 ≤ acc'.length then some acc'
        else fallbackPairGroup rest (seen_domains ++ [e.domain]) acc'
      else fallbackPairGroup rest seen_domains acc

/-- `_group_articles_by_topic` (news_generalizer.py 149-192). -/
def group_articles_by_topic (entries : List GEntry) (min_group_size : Nat) :
    Option (List GEntry) :=
  if entries.length < min_group_size then none
  else
    match findSeedGroup entries min_group_size (entries.enum.take 15) with
    | some g => some g
    | none =>
        if 2 ≤ entries.length then fallbackPairGroup (entries.take 10) [] []
        else none

/-- `re.split(r'[.!?]+', s)`: split on maximal runs of sentence punctuation
(no whitespace required).  `skip` marks that the scan is inside a run whose
boundary token was already emitted. -/
def splitPunctAux : Bool → List Char → List Char → List (List Char)
  | _, [], acc => [acc.reverse]
  | true, c :: cs, acc =>
      if c = '.' ∨ c = '!' ∨ c = '?' then splitPunctAux true cs acc
      else splitPunctAux false cs [c]
  | false, c :: cs, acc =>
      if c = '.' ∨ c = '!' ∨ c = '?' then acc.reverse :: splitPunctAux true cs []
      else splitPunctAux false cs (c :: acc)

/-- The selection loop of `_simple_bullet_extraction` (news_generalizer.py
350-356): trimmed sentences of length [30, 200] not starting (lowercased)
with this/that/these/those, capped at 5. -/
def sbeLoop : List String → List String → List String
  | [], bullets => bullets
  | sent :: rest, bullets =>
      let sent := strTrim sent
      if 30 ≤ sent.length ∧ sent.length ≤ 200 ∧
          ¬ (["this", "that", "these", "those"].any (fun p => strStarts (strLower sent) p)) then
        let bullets' := bullets ++ [sent]
        if 5 ≤ bullets'.length then bullets' else sbeLoop rest bullets'
      else sbeLoop rest bullets

/-- `_simple_bullet_extraction` (news_generalizer.py 345-357). -/
def simple_bullet_extraction (text : String) : List String :=
  sbeLoop ((splitPunctAux false text.data []).map String.mk) []

/-- The external collaborators of `news_generalizer.py`, abstracted:
BeautifulSoup's `get_text(separator=' ', strip=True)`, the page-text and
page-image scrapers (network; `""`/`none` = failure), and the external
OpenAI/HuggingFace summarizer (`none` = unavailable or failed, making the
code fall back to `_simple_bullet_extraction`), whose response is taken
already parsed into bullet lines. -/
structure GenCaps where
  stripWs : String → String
  textOf : String → String
  imageOf : String → Option String
  aiBullets : List String → List String → Option (List String)

/-- `DEFAULT_IMAGE` (news_generalizer.py 39). -/
def DEFAULT_IMAGE : String := "https://via.placeholder.com/800x400?text=News"

/-- The article dictionary returned by `fetch_and_generalize_news` /
`_create_demo_article`; `sources` holds `(url, title, domain)` triples. -/
structure GenArticle where
  title : String
  summary : String
  content : String
  link : String
  photo : String
  sources : List (String × String × String)
  ai_generated : Bool
deriving DecidableEq, Repr

/-- The three demo topics of `_create_demo_article` (news_generalizer.py
362-402) as `(title, bullets, sources)` triples. -/
def demoTopics : List (String × List String × List (String × String × String)) :=
  [("Global Climate Summit Reaches Historic Agreement",
    ["World leaders agree on ambitious carbon reduction targets by 2030",
     "New funding mechanism established for developing nations",
     "Renewable energy investments to triple over next decade",
     "Major economies commit to net-zero emissions timeline"],
    [("https://example.com/news1", "Climate Agreement Reached", "example.com"),
     ("https://example.com/news2", "Global Climate Deal", "example.com")]),
   ("Technology Breakthrough in Artificial Intelligence",
    ["New AI model demonstrates significant improvements in reasoning",
     "Researchers achieve breakthrough in natural language understanding",
     "Industry leaders announce major AI safety initiatives",
     "Applications expected across healthcare, education, and research sectors"],
    [("https://example.com/tech1", "AI Breakthrough Announced", "example.com"),
     ("https://example.com/tech2", "New AI Model Released", "example.com")]),
   ("International Space Mission Successfully Launched",
    ["Multi-nation collaboration launches mission to study distant planets",
     "Advanced instruments will analyze atmospheric composition",
     "Mission expected to provide insights into planetary formation",
     "Data collection phase to begin in coming months"],
    [("https://example.com/space1", "Space Mission Launched", "example.com"),
     ("https://example.com/space2", "International Space Collaboration", "example.com")])]

/-- `_create_demo_article` (news_generalizer.py 360-417); `choice` models
`random.choice(demo_topics)`. -/
def create_demo_article (choice : Fin 3) : GenArticle :=
  let topic := demoTopics.getD choice.val ("", [], [])
  let bullet_text := "\n".intercalate (topic.2.1.map (fun p => "• " ++ p))
  { title := topic.1, summary := bullet_text, content := bullet_text,
    link := (topic.2.2.headD ("", "", "")).1, photo := DEFAULT_IMAGE,
    sources := topic.2.2, ai_generated := true }

/-- `_generate_bullet_summary_ai` (news_generalizer.py 263-342): with both
external summarizers unavailable (`none`), the deterministic
`_simple_bullet_extraction` of the concatenated, whitespace-collapsed,
3000-character-capped text. -/
def generate_bullet_summary_ai (caps : GenCaps) (texts summaries : List String) :
    List String :=
  let combined_text :=
    if ¬ texts.isEmpty then " ".intercalate texts else " ".intercalate summaries
  if combined_text = "" then []
  else
    let combined_text := strTake (collapseWs combined_text) 3000
    match caps.aiBullets texts summaries with
    | some bullets => bullets
    | none => simple_bullet_extraction combined_text

/-- The per-article content collection loop of `fetch_and_generalize_news`
(news_generalizer.py 472-503): gather page texts, cleaned summaries (> 50
chars, capped at 500) and source triples, stopping once 2 texts or 3
text+summary items exist. -/
def collectSourcesAux (caps : GenCaps) :
    List GEntry → List String → List String → List (String × String × String) →
    List String × List String × List (String × String × String)
  | [], texts, summaries, sources => (texts, summaries, sources)
  | article :: rest, texts, summaries, sources =>
      let texts' :=
        let ft := caps.textOf article.link
        if ft ≠ "" then texts ++ [ft] else texts
      let summaries' :=
        if article.summary ≠ "" then
          let clean := caps.stripWs article.summary
          if clean ≠ "" ∧ 50 < clean.length then summaries ++ [strTake clean 500]
          else summaries
        else summaries
      let sources' := sources ++ [(article.link, article.title, article.domain)]
      if 2 ≤ texts'.length ∨ 3 ≤ texts'.length + summaries'.length then
        (texts', summaries', sources')
      else collectSourcesAux caps rest texts' summaries' sources'

/-- Step-5 image loop (news_generalizer.py 544-551): first non-empty scraped
image of the first two sources. -/
def firstImage (caps : GenCaps) : List (String × String × String) → Option String
  | [] => none
  | s :: rest =>
      match caps.imageOf s.1 with
      | some img => if img ≠ "" then some img else firstImage caps rest
      | none => firstImage caps rest

/-- `fetch_and_generalize_news` (news_generalizer.py 420-588), with the
fetched entries as input (`_fetch_rss_entries` is network I/O) and
`choice` the demo-topic pick.  `.get` defaults on keys that the entry
builder always populates (`title`, `link`) read as plain field access. -/
def fetch_and_generalize_news (caps : GenCaps) (choice : Fin 3)
    (entries : List GEntry) : Option GenArticle :=
  if entries.isEmpty then some (create_demo_article choice)
  else if entries.length < 2 then
    match entries with
    | [entry] =>
        let clean_summary :=
          if entry.summary ≠ "" then strTake (caps.stripWs entry.summary) 500
          else entry.title
        let bullets := simple_bullet_extraction (strTake clean_summary 1000)
        let bullets :=
          if bullets.isEmpty then
            [if clean_summary ≠ "" then strTake clean_summary 150 else entry.title]
          else bullets
        let bullet_text := "\n".intercalate (bullets.map (fun b => "• " ++ b))
        some { title := entry.title, summary := bullet_text, content := bullet_text,
               link := entry.link, photo := DEFAULT_IMAGE,
               sources := [(entry.link, entry.title, entry.domain)],
               ai_generated := true }
    | _ => none
  else
    let group :=
      match group_articles_by_topic (entries.take 25) 2 with
      | some g => some g
      | none => if 2 ≤ entries.length then some (entries.take 2) else none
    match group with
    | none => none
    | some group =>
        let collected := collectSourcesAux caps (group.take 3) [] [] []
        let texts := collected.1
        let summaries := collected.2.1
        let sources := collected.2.2
        let summariesOpt : Option (List String) :=
          if texts.isEmpty ∧ summaries.isEmpty then
            let fromTitles :=
              if ¬ sources.isEmpty then (sources.map (fun s => s.2.1)).filter (· ≠ "")
              else []
            if ¬ fromTitles.isEmpty then some fromTitles
            else
              let title_text :=
                " ".intercalate ((sources.map (fun s => s.2.1)).filter (· ≠ ""))
              if ¬ sources.isEmpty ∧ title_text ≠ "" then some [title_text] else none
          else some summaries
        match summariesOpt with
        | none => none
        | some summaries =>
            let combined :=
              if ¬ texts.isEmpty then " ".intercalate (texts.take 2)
              else " ".intercalate (summaries.take 3)
            let combined :=
              if combined = "" ∨ (strTrim combined).length < 50 then
                " ".intercalate (((sources.take 3).map (fun s => s.2.1)).filter (· ≠ ""))
              else combined
            let bullet_points := simple_bullet_extraction (strTake combined 1500)
            let bullet_points :=
              if bullet_points.isEmpty then generate_bullet_summary_ai caps texts summaries
              else bullet_points
            let bullet_points :=
              if bullet_points.isEmpty then
                if ¬ sources.isEmpty then
                  (sources.take 3).map (fun s => "News coverage from " ++ s.2.2)
                else []
              else bullet_points
            if bullet_points.isEmpty then none
            else
              let image := (firstImage caps (sources.take 2)).getD DEFAULT_IMAGE
              let title :=
                match sources with
                | [] => "News Summary"
                | s :: _ => if s.2.1 ≠ "" then s.2.1 else "News Summary"
              let title := if title = "" ∨ (strTrim title).length < 5 then "News Summary" else title
              let bullet_text := "\n".intercalate (bullet_points.map (fun p => "• " ++ p))
              if bullet_text = "" ∨ (strTrim bullet_text).length < 10 then none
              else
                let link :=
                  match sources with
                  | [] => ""
                  | s :: _ => s.1
                let link :=
                  if link = "" then ((sources.map (fun s => s.1)).filter (· ≠ "")).headD "#"
                  else link
                some { title := title, summary := bullet_text, content := bullet_text,
                       link := link, photo := image, sources := sources,
                       ai_generated := true }

/-! Claim-side measures and concrete instances used by the claim theorems. -/

/-- The token-set overlap ratio `|A∩B| / max(|A|,|B|)` between two bullet
strings, the measure named by the bullet-dedup property. -/
def tokenOverlapRatio (a b : String) : ℚ :=
  ((bulletWords a ∩ bulletWords b).card : ℚ)
    / ((max (bulletWords a).card (bulletWords b).card : Nat) : ℚ)

/-- The sentence score as the specification words it: digit and length
bonuses plus the sum of the corpus-wide frequencies of the sentence's own
(distinct) word tokens — not of corpus words merely occurring as
substrings. -/
def claimConstituentScore (freq : List (String × Nat)) (s : String) : Nat :=
  (if s.data.any Char.isDigit then 2 else 0)
  + (if 60 ≤ s.length ∧ s.length ≤ 160 then 1 else 0)
  + (((wordTokens (strLower s)).dedup).map (fun w => (List.lookup w freq).getD 0)).sum

/-- A raw URL that `_make_absolute_url` turns into (or keeps as) a
scheme-qualified URL without consulting `urljoin`: empty, already absolute,
or protocol-relative. -/
def absLike (s : String) : Prop :=
  s = "" ∨ strStarts s "http://" = true ∨ strStarts s "https://" = true
    ∨ strStarts s "//" = true

instance (s : String) : Decidable (absLike s) := by unfold absLike; infer_instance

/-- The conclusion of the absolutization invariant: a scheme-qualified
URL. -/
def httpPrefix (u : String) : Prop :=
  strStarts u "http://" = true ∨ strStarts u "https://" = true

instance (u : String) : Decidable (httpPrefix u) := by
  unfold httpPrefix; infer_instance

/-- `httpPrefix` on the character-list level: the list extends `http://` or
`https://`. -/
def hPreL (l : List Char) : Prop :=
  (∃ r, l = "http://".data ++ r) ∨ (∃ r, l = "https://".data ++ r)

/-- Witness scenario: two same-story articles from distinct sources with
substantial plain-text summaries. -/
def wArt1 : Article :=
  { title := "Alpha beta gamma delta launch event", link := "http://a.example/1",
    source := "SrcA", description := "",
    summary := "The rocket launch gathered thousands of spectators near the coast. Officials confirmed that the mission deployed 14 satellites into orbit today." }

/-- Second witness article (same story, different source). -/
def wArt2 : Article :=
  { title := "Alpha beta gamma epsilon launch report", link := "http://b.example/2",
    source := "SrcB", description := "",
    summary := "Engineers praised the smooth countdown and the weather held steady. The booster returned safely to the drone ship after separation." }

/-- The synthesized article the pipeline produces from the witness scenario
with no generative capability. -/
def wResult : SynthesizedArticle :=
  { title := "Alpha beta gamma delta launch event",
    content_bullets :=
      ["Officials confirmed that the mission deployed 14 satellites into orbit today",
       "The rocket launch gathered thousands of spectators near the coast",
       "Engineers praised the smooth countdown and the weather held steady",
       "The booster returned safely to the drone ship after separation."],
    content_sources := [("SrcA", "http://a.example/1"), ("SrcB", "http://b.example/2")],
    summary := "Coverage from 2 sources",
    photo := none,
    source_url := "http://a.example/1",
    bullets :=
      ["Officials confirmed that the mission deployed 14 satellites into orbit today",
       "The rocket launch gathered thousands of spectators near the coast",
       "Engineers praised the smooth countdown and the weather held steady",
       "The booster returned safely to the drone ship after separation."],
    source_count := 2 }

/-- An article whose title clusters with itself; used to exhibit duplicate
sources inside one emitted group. -/
def c1Art : Article :=
  { title := "alpha beta gamma news story", link := "http://bbc.example/1",
    source := "BBC News", description := "", summary := "irrelevant" }

/-- Concrete capabilities for the second orchestrator: no page text, no page
images, no external summarizer, HTML stripping trivial on plain text. -/
def c2Caps : GenCaps :=
  { stripWs := id, textOf := fun _ => "", imageOf := fun _ => none,
    aiBullets := fun _ _ => none }

/-- First generative bullet of the dedup counterexample (39 characters,
7 tokens). -/
def c5b1 : String := "alpha beta gamma delta epsilon zeta eta"

/-- Second generative bullet: shares 6 of its 7 tokens with the first. -/
def c5b2 : String := "alpha beta gamma delta epsilon zeta theta"

/-- A source summary whose corpus makes the substring scoring visible: the
word `rain` (frequency 3) occurs inside `training` but is not a constituent
word of the first sentence. -/
def c7ss : List SourceSummary :=
  [{ source := "SrcA", url := "u1",
     summary := "The training session went well for everyone involved there. Heavy rain fell on the rain soaked rain field." }]

/-- The first fallback candidate sentence of the `c7ss` corpus. -/
def c7sentence : String := "The training session went well for everyone involved there"

/-- A feed entry with an empty link and a relative structured-media image
URL: `_make_absolute_url` has no base to resolve against. -/
def c9Entry : FeedEntry :=
  { link := "", mediaContent := [{ url := "/img/pic.png", type := "image/png" }],
    mediaThumbnail := [], summaryImgs := [] }

/-- A feed entry whose only image reference is already absolute. -/
def c9AbsEntry : FeedEntry :=
  { link := "http://site.example/story",
    mediaContent := [{ url := "https://cdn.example/photo_thumb.jpg?width=300", type := "image/jpeg" }],
    mediaThumbnail := [], summaryImgs := [] }

/-! Helper lemmas. -/

/-- Every group the clustering worker emits has at least two members. -/
theorem groupByTopicAux_two_le (thNum thDen : Nat) :
    ∀ (l : List (Nat × Article)) (used : List Nat) (g : List Article),
      g ∈ groupByTopicAux thNum thDen l used → 2 ≤ g.length := by
  intro l
  induction l with
  | nil => intro used g h; simp [groupByTopicAux] at h
  | cons p rest ih =>
      intro used g h
      obtain ⟨i, a⟩ := p
      rw [groupByTopicAux] at h
      split at h
      · exact ih _ g h
      · simp only [] at h
        split at h
        · rcases List.mem_cons.mp h with h1 | h1
          · subst h1; assumption
          · exact ih _ g h1
        · exact ih _ g h

/-- `_calculate_similarity` is symmetric. -/
theorem calculate_similarity_comm (A B : String) :
    calculate_similarity A B = calculate_similarity B A := by
  by_cases h1 : titleWords A = ∅ <;> by_cases h2 : titleWords B = ∅ <;>
    simp [calculate_similarity, h1, h2, Finset.inter_comm, Finset.union_comm]

/-! Claim C1.  The claim asserts both `size ≥ 2` and pairwise-distinct
sources for every emitted group.  The size bound holds, but
`group_by_topic` never inspects sources: two articles from the same source
with similar titles land in one group. -/

/-- C1, counterexample: two copies of the same BBC article form an emitted
group of size 2 whose members share one source, refuting the
pairwise-distinct-sources half of the claim. -/
theorem claim_C1_counterexample :
    [c1Art, c1Art] ∈ group_by_topic [c1Art, c1Art] 3 10 ∧
      ¬ distinctSources [c1Art, c1Art] := by
  constructor
  · decide
  · decide

/-- C1, amended: every story group emitted by `group_by_topic` contains at
least 2 entries, for every input article list and similarity threshold
`thNum/thDen`; the members' source domains, however, need not be pairwise
distinct. -/
theorem claim_C1_theorem (articles : List Article) (thNum thDen : Nat) :
    ∀ g ∈ group_by_topic articles thNum thDen, 2 ≤ g.length := by
  intro g h
  exact groupByTopicAux_two_le thNum thDen _ _ g h

/-- C1, witness: the amended bound evaluated on the duplicate-article
group. -/
theorem claim_C1_witness : 2 ≤ ([c1Art, c1Art] : List Article).length :=
  claim_C1_theorem [c1Art, c1Art] 3 10 [c1Art, c1Art] (by decide)

/-! Claim C3.  Symmetry and the zero-token clause hold, but
`similarity(A,A) = 1.0` fails for a non-empty title with no word tokens:
the zero-token clause itself forces `similarity("!","!") = 0`. -/

/-- C3, counterexample: `"!"` is a non-empty title, yet its self-similarity
is 0, not 1. -/
theorem claim_C3_counterexample :
    ("!" : String) ≠ "" ∧ calculate_similarity "!" "!" ≠ 1 ∧
      calculate_similarity "!" "!" = 0 := by
  have h : titleWords "!" = ∅ := by decide
  refine ⟨by decide, ?_, ?_⟩
  · simp [calculate_similarity, h]
  · simp [calculate_similarity, h]

/-- C3, amended: `_calculate_similarity` is symmetric for all strings;
self-similarity is 1 for every title with at least one word token (rather
than every non-empty title); and the similarity is 0 whenever either title
has zero word tokens. -/
theorem claim_C3_theorem :
    (∀ A B, calculate_similarity A B = calculate_similarity B A) ∧
    (∀ A, titleWords A ≠ ∅ → calculate_similarity A A = 1) ∧
    (∀ A B, titleWords A = ∅ ∨ titleWords B = ∅ → calculate_similarity A B = 0) := by
  refine ⟨calculate_similarity_comm, ?_, ?_⟩
  · intro A hA
    have hcard : (titleWords A).card ≠ 0 := by
      simpa [Finset.card_eq_zero] using hA
    simp [calculate_similarity, hA, Finset.inter_self, Finset.union_self,
      div_self, Nat.cast_ne_zero.mpr hcard]
  · intro A B h
    rcases h with h | h <;> simp [calculate_similarity, h]

/-- C3, witness: the amended properties evaluated at concrete titles. -/
theorem claim_C3_witness :
    calculate_similarity "Breaking news today" "Breaking news today" = 1 ∧
      calculate_similarity "???" "some words" = 0 :=
  ⟨claim_C3_theorem.2.1 "Breaking news today" (by decide),
   claim_C3_theorem.2.2 "???" "some words" (Or.inl (by decide))⟩

/-! Claim C8: with no generative capability configured (empty API key),
`_extract_generalized_bullets` never consults the generative collaborator,
so two runs — even against collaborators behaving differently — return
identical bullet lists.  (The model is otherwise pure, so the collaborator
is the only possible source of run-to-run variation.) -/

/-- C8: with an empty `gemini_api_key`, the summarizer's output does not
depend on the generative collaborator: any two runs on the same source
summaries, `max_bullets` and title agree. -/
theorem claim_C8_theorem (strip : String → String)
    (g1 g2 : List SourceSummary → String → List String)
    (source_summaries : List SourceSummary) (max_bullets : Nat) (title : String) :
    extract_generalized_bullets strip "" g1 source_summaries max_bullets title =
      extract_generalized_bullets strip "" g2 source_summaries max_bullets title := by
  unfold extract_generalized_bullets
  simp

/-! Claim C2.  For `fetch_multi_source_article` every insufficient-data
situation indeed yields `None` (and the total Lean model reflects that no
exception escapes).  The claim however also covers the second orchestrator,
`fetch_and_generalize_news`, at its cited lines 420-429 — and there a feed
list with zero entries produces a *demo article*, not a no-result. -/

/-- C2, counterexample: with zero fetched entries,
`fetch_and_generalize_news` returns the demo article — an article, not
`None` — refuting "never return an article" for the insufficient-data
case the claim itself cites. -/
theorem claim_C2_counterexample :
    fetch_and_generalize_news c2Caps 0 [] = some (create_demo_article 0) := rfl

/-- C2, amended: for `fetch_multi_source_article`, every insufficient-data
situation — no articles, no groups, no eligible candidate, no tried
candidate with ≥ 2 valid summaries, or fewer than 2 bullets for the
selected candidate — yields `None` (the model is total, so no exception
reaches the caller); `fetch_and_generalize_news`, by contrast, returns a
demo article when the feed list yields zero entries. -/
theorem fetch_insufficient_none (strip : String → String)
    (urljoin : String → String → String) (gemini_api_key : String)
    (gemini : List SourceSummary → String → List String)
    (articles : List Article) (exclude_titles : List String)
    (h : articles = [] ∨ group_by_topic articles 1 4 = []
      ∨ analyze_available_stories articles exclude_titles = []
      ∨ firstViableStory strip
          ((analyze_available_stories articles exclude_titles).take 5) = none
      ∨ ∃ st ss, firstViableStory strip
            ((analyze_available_stories articles exclude_titles).take 5) = some (st, ss)
          ∧ (extract_generalized_bullets strip gemini_api_key gemini ss 7
              st.group.headI.title).length < 2) :
    fetch_multi_source_article strip urljoin gemini_api_key gemini
      articles exclude_titles = none := by
  have havail : analyze_available_stories articles exclude_titles = [] →
      fetch_multi_source_article strip urljoin gemini_api_key gemini
        articles exclude_titles = none := by
    intro he
    unfold fetch_multi_source_article
    rw [he]
    rfl
  rcases h with h | h | h | h | ⟨st, ss, hfv, hlen⟩
  · apply havail
    rw [h]
    rfl
  · apply havail
    unfold analyze_available_stories
    rw [h]
    split <;> rfl
  · exact havail h
  · unfold fetch_multi_source_article
    simp only []
    split
    · rfl
    · rw [h]
  · unfold fetch_multi_source_article
    simp only []
    split
    · rfl
    · rw [hfv]
      simp only []
      rw [if_pos (Or.inr hlen)]

/-- C2, amended (restated): every insufficient-data situation makes
`fetch_multi_source_article` return `None`. -/
theorem claim_C2_theorem (strip : String → String)
    (urljoin : String → String → String) (gemini_api_key : String)
    (gemini : List SourceSummary → String → List String)
    (articles : List Article) (exclude_titles : List String)
    (h : articles = [] ∨ group_by_topic articles 1 4 = []
      ∨ analyze_available_stories articles exclude_titles = []
      ∨ firstViableStory strip
          ((analyze_available_stories articles exclude_titles).take 5) = none
      ∨ ∃ st ss, firstViableStory strip
            ((analyze_available_stories articles exclude_titles).take 5) = some (st, ss)
          ∧ (extract_generalized_bullets strip gemini_api_key gemini ss 7
              st.group.headI.title).length < 2) :
    fetch_multi_source_article strip urljoin gemini_api_key gemini
      articles exclude_titles = none :=
  fetch_insufficient_none strip urljoin gemini_api_key gemini articles exclude_titles h

/-- C2, witness: an empty article list makes the orchestrator return
`None`, by the claim theorem applied at the concrete empty input. -/
theorem claim_C2_witness :
    fetch_multi_source_article id (fun _ u => u) "" (fun _ _ => []) [] [] = none :=
  claim_C2_theorem id (fun _ u => u) "" (fun _ _ => []) [] [] (Or.inl rfl)

/-! Claim C4: bullet-count bounds of the orchestrator's result. -/

/-- `(l.take n).length ≤ n`. -/
theorem take_length_le {α : Type} (n : Nat) (l : List α) : (l.take n).length ≤ n := by
  simp [List.length_take]

/-- The fallback extractor returns at most `max_bullets` bullets. -/
theorem fallbackBullets_le (strip : String → String)
    (source_summaries : List SourceSummary) (max_bullets : Nat) :
    (fallbackBullets strip source_summaries max_bullets).length ≤ max_bullets := by
  unfold fallbackBullets
  simp only []
  split
  · simp
  · split
    · simp
    · exact take_length_le max_bullets _

/-- The synthesizer never returns more than 7 bullets when capped at 7. -/
theorem extract_generalized_bullets_le_seven (strip : String → String)
    (key : String) (gemini : List SourceSummary → String → List String)
    (source_summaries : List SourceSummary) (title : String) :
    (extract_generalized_bullets strip key gemini source_summaries 7 title).length ≤ 7 := by
  unfold extract_generalized_bullets geminiBullets
  simp only []
  split
  · simp
  · split
    · split
      · exact fallbackBullets_le strip source_summaries 7
      · exact take_length_le 7 _
    · exact fallbackBullets_le strip source_summaries 7

/-- C4: whenever `fetch_multi_source_article` returns a result, its bullet
list has between 2 and 7 entries; and when fewer than 2 bullets can be
produced for the selected candidate, it returns `None`. -/
theorem claim_C4_theorem (strip : String → String)
    (urljoin : String → String → String) (gemini_api_key : String)
    (gemini : List SourceSummary → String → List String)
    (articles : List Article) (exclude_titles : List String) :
    (∀ r, fetch_multi_source_article strip urljoin gemini_api_key gemini
        articles exclude_titles = some r →
      2 ≤ r.bullets.length ∧ r.bullets.length ≤ 7) ∧
    (∀ st ss, firstViableStory strip
        ((analyze_available_stories articles exclude_titles).take 5) = some (st, ss) →
      (extract_generalized_bullets strip gemini_api_key gemini ss 7
          st.group.headI.title).length < 2 →
      fetch_multi_source_article strip urljoin gemini_api_key gemini
        articles exclude_titles = none) := by
  constructor
  · intro r h
    unfold fetch_multi_source_article at h
    simp only [] at h
    split at h
    · exact absurd h (by simp)
    · rcases hfv : firstViableStory strip
          ((analyze_available_stories articles exclude_titles).take 5) with _ | ⟨st, ss⟩
      · rw [hfv] at h
        exact absurd h (by simp)
      · rw [hfv] at h
        simp only [] at h
        split at h
        · exact absurd h (by simp)
        · rename_i hguard
          rw [Option.some_inj] at h
          have hb : r.bullets = extract_generalized_bullets strip gemini_api_key gemini
              ss 7 st.group.headI.title := by rw [← h]
          push_neg at hguard
          constructor
          · rw [hb]
            omega
          · rw [hb]
            exact extract_generalized_bullets_le_seven _ _ _ _ _
  · intro st ss hfv hlen
    exact fetch_insufficient_none strip urljoin gemini_api_key gemini articles exclude_titles
      (Or.inr (Or.inr (Or.inr (Or.inr ⟨st, ss, hfv, hlen⟩))))

set_option maxRecDepth 8192 in
/-- C4, witness: the concrete witness scenario yields a result whose bullet
count lies in [2, 7], by the claim theorem applied at the evaluated run. -/
theorem claim_C4_witness :
    2 ≤ wResult.bullets.length ∧ wResult.bullets.length ≤ 7 :=
  (claim_C4_theorem id (fun _ u => u) "" (fun _ _ => []) [wArt1, wArt2] []).1
    wResult (by decide)

/-! Claim C6: a candidate whose seed title is more than 0.5-similar to an
excluded title never enters the eligible list of
`analyze_available_stories` (and the orchestrator selects only from that
list). -/

/-- The executable exclusion test agrees with the rational similarity
value: `simGtHalf` is `false` exactly when the similarity is at most
one half. -/
theorem simGtHalf_false_iff (t1 t2 : String) :
    simGtHalf t1 t2 = false ↔ calculate_similarity t1 t2 ≤ 1 / 2 := by
  unfold simGtHalf calculate_similarity
  by_cases h : titleWords t1 = ∅ ∨ titleWords t2 = ∅
  · simp [h]
  · rw [if_neg h, if_neg h]
    have hne : titleWords t1 ≠ ∅ := fun he => h (Or.inl he)
    have hu : titleWords t1 ∪ titleWords t2 ≠ ∅ := by
      intro he
      exact hne (Finset.union_eq_empty.mp he).1
    rw [if_neg hu]
    have hupos : 0 < ((titleWords t1 ∪ titleWords t2).card : ℚ) := by
      have : (titleWords t1 ∪ titleWords t2).Nonempty := Finset.nonempty_iff_ne_empty.mpr hu
      exact_mod_cast Finset.card_pos.mpr this
    rw [div_le_div_iff₀ hupos (by norm_num : (0:ℚ) < 2)]
    constructor
    · intro hle
      have h2 : ¬ ((titleWords t1 ∪ titleWords t2).card
          < 2 * (titleWords t1 ∩ titleWords t2).card) := by
        simpa using hle
      push_neg at h2
      have : ((titleWords t1 ∩ titleWords t2).card : ℚ) * 2
          ≤ ((titleWords t1 ∪ titleWords t2).card : ℚ) := by
        exact_mod_cast (by omega : (titleWords t1 ∩ titleWords t2).card * 2
          ≤ (titleWords t1 ∪ titleWords t2).card)
      simpa [one_mul] using this
    · intro hle
      have : (titleWords t1 ∩ titleWords t2).card * 2
          ≤ (titleWords t1 ∪ titleWords t2).card := by
        exact_mod_cast (by simpa [one_mul] using hle :
          ((titleWords t1 ∩ titleWords t2).card : ℚ) * 2
            ≤ ((titleWords t1 ∪ titleWords t2).card : ℚ))
      simp
      omega

/-- C6: every story in the eligible candidate list of
`analyze_available_stories` has similarity at most 0.5 to every excluded
title; since the orchestrator only selects stories from this list, such a
group is never selected. -/
theorem claim_C6_theorem (articles : List Article) (exclude_titles : List String)
    (st : CandidateStory)
    (hst : st ∈ analyze_available_stories articles exclude_titles) :
    ∀ t ∈ exclude_titles, calculate_similarity st.title t ≤ 1 / 2 := by
  intro t ht
  unfold analyze_available_stories at hst
  split at hst
  · simp at hst
  · simp only [] at hst
    split at hst
    · simp at hst
    · rw [List.mem_insertionSort] at hst
      rw [List.mem_filterMap] at hst
      obtain ⟨group, _, hsome⟩ := hst
      split at hsome
      · rename_i hguard
        rw [Option.some_inj] at hsome
        have htitle : st.title = ((group.head?).map (fun a => a.title)).getD "" := by
          rw [← hsome]
        have hnew := (Bool.and_eq_true _ _).mp hguard |>.1
        rw [Bool.not_eq_true', List.any_eq_false] at hnew
        have := hnew t ht
        rw [← htitle] at this
        exact (simGtHalf_false_iff st.title t).mp (Bool.not_eq_true _ ▸ this)
      · exact absurd hsome (by simp)

set_option maxRecDepth 4096 in
/-- C6, witness: the claim theorem applied to the concrete eligible story
of the witness scenario and its excluded title. -/
theorem claim_C6_witness :
    calculate_similarity "Alpha beta gamma delta launch event"
      "unrelated exclusion sentence" ≤ 1 / 2 :=
  claim_C6_theorem [wArt1, wArt2] ["unrelated exclusion sentence"]
    { group := [wArt1, wArt2], title := "Alpha beta gamma delta launch event",
      source_count := 2, max_similarity := (0, 1) }
    (by decide) "unrelated exclusion sentence" (by decide)

/-! Claim C5.  The fallback path does enforce the 0.55 overlap bound — but
the claim covers *both* synthesis paths, and the generative path performs no
dedup at all: whatever (sufficiently long) lines the generative collaborator
returns are emitted as-is, capped at 7. -/

/-- A failed duplicate test bounds the claim-side overlap ratio. -/
theorem ratio_not_gt_of_check (b s : String) (hs : bulletWords s ≠ ∅)
    (h : ¬ (11 * (if max (bulletWords s).card (bulletWords b).card = 0 then 1
        else max (bulletWords s).card (bulletWords b).card)
      ≤ 20 * (bulletWords s ∩ bulletWords b).card)) :
    ¬ ((11 : ℚ) / 20 < tokenOverlapRatio b s) := by
  have hspos : 0 < (bulletWords s).card :=
    Finset.card_pos.mpr (Finset.nonempty_iff_ne_empty.mpr hs)
  have hmpos : 0 < max (bulletWords s).card (bulletWords b).card :=
    lt_of_lt_of_le hspos (le_max_left _ _)
  rw [if_neg (Nat.pos_iff_ne_zero.mp hmpos)] at h
  push_neg at h
  unfold tokenOverlapRatio
  rw [Finset.inter_comm, max_comm (bulletWords b).card]
  have hmq : 0 < ((max (bulletWords s).card (bulletWords b).card : Nat) : ℚ) := by
    exact_mod_cast hmpos
  rw [not_lt, div_le_div_iff₀ hmq (by norm_num : (0:ℚ) < 20)]
  have : 20 * (bulletWords s ∩ bulletWords b).card
      ≤ 11 * max (bulletWords s).card (bulletWords b).card := le_of_lt h
  calc ((bulletWords s ∩ bulletWords b).card : ℚ) * 20
      = ((20 * (bulletWords s ∩ bulletWords b).card : Nat) : ℚ) := by push_cast; ring
    _ ≤ ((11 * max (bulletWords s).card (bulletWords b).card : Nat) : ℚ) := by
        exact_mod_cast this
    _ = 11 * ((max (bulletWords s).card (bulletWords b).card : Nat) : ℚ) := by push_cast; ring

/-- The bullet-selection loop only ever extends its accumulator with
sentences that pass the overlap test against everything already selected,
so its output is pairwise non-overlapping. -/
theorem selectBullets_pairwise (max_bullets : Nat) :
    ∀ (scored : List (Nat × String)) (bullets : List String) (seen : List (Finset String)),
      seen = bullets.map bulletWords →
      bullets.Pairwise (fun a b => ¬ ((11 : ℚ) / 20 < tokenOverlapRatio a b)) →
      (selectBullets max_bullets scored bullets seen).Pairwise
        (fun a b => ¬ ((11 : ℚ) / 20 < tokenOverlapRatio a b)) := by
  intro scored
  induction scored with
  | nil =>
      intro bullets seen hseen hpw
      simpa [selectBullets] using hpw
  | cons p rest ih =>
      intro bullets seen hseen hpw
      obtain ⟨sc, sentence⟩ := p
      rw [selectBullets]
      simp only []
      split
      · exact ih bullets seen hseen hpw
      · rename_i hne0
        split
        · exact ih bullets seen hseen hpw
        · rename_i hdup
          have hR : ∀ b ∈ bullets, ¬ ((11 : ℚ) / 20 < tokenOverlapRatio b sentence) := by
            intro b hb
            unfold overlapDuplicate at hdup
            rw [Bool.not_eq_true, List.any_eq_false] at hdup
            have hcheck := hdup (bulletWords b) (by rw [hseen]; exact List.mem_map_of_mem _ hb)
            simp only [decide_eq_true_eq] at hcheck
            exact ratio_not_gt_of_check b sentence hne0 hcheck
          have hpw' : (bullets ++ [sentence]).Pairwise
              (fun a b => ¬ ((11 : ℚ) / 20 < tokenOverlapRatio a b)) := by
            rw [List.pairwise_append]
            exact ⟨hpw, by simp, by simpa using hR⟩
          split
          · exact hpw'
          · exact ih (bullets ++ [sentence]) (seen ++ [bulletWords sentence])
              (by rw [hseen]; simp) hpw'

/-- With no generative capability, the synthesizer's output is pairwise
non-overlapping. -/
theorem extract_empty_key_pairwise (strip : String → String)
    (gemini : List SourceSummary → String → List String)
    (source_summaries : List SourceSummary) (max_bullets : Nat) (title : String) :
    (extract_generalized_bullets strip "" gemini source_summaries max_bullets
        title).Pairwise (fun a b => ¬ ((11 : ℚ) / 20 < tokenOverlapRatio a b)) := by
  unfold extract_generalized_bullets
  simp only []
  split
  · simp
  · rw [if_neg (by simp)]
    unfold fallbackBullets
    simp only []
    split
    · simp
    · split
      · simp
      · exact List.Pairwise.sublist (List.take_sublist _ _)
          (selectBullets_pairwise max_bullets _ [] [] rfl (by simp))

set_option maxRecDepth 8192 in
/-- C5, counterexample: with a generative collaborator returning two
distinct bullets sharing 6 of 7 tokens (overlap ratio 6/7 > 0.55), the
orchestrator emits both — the generative path performs no dedup, refuting
the claim for that path. -/
theorem claim_C5_counterexample :
    (fetch_multi_source_article id (fun _ u => u) "k" (fun _ _ => [c5b1, c5b2])
        [wArt1, wArt2] []).map (fun r => r.bullets) = some [c5b1, c5b2]
    ∧ c5b1 ≠ c5b2 ∧ (11 : ℚ) / 20 < tokenOverlapRatio c5b1 c5b2 := by
  refine ⟨by decide, by decide, ?_⟩
  have h1 : (bulletWords c5b1 ∩ bulletWords c5b2).card = 6 := by decide
  have h2 : max (bulletWords c5b1).card (bulletWords c5b2).card = 7 := by decide
  unfold tokenOverlapRatio
  rw [h1, h2]
  norm_num

/-- C5, amended: in every result the orchestrator synthesizes through the
deterministic fallback path (no generative capability configured), no two
bullets have token-set overlap ratio greater than 0.55; the generative path
does not enforce this bound. -/
theorem claim_C5_theorem (strip : String → String)
    (urljoin : String → String → String)
    (gemini : List SourceSummary → String → List String)
    (articles : List Article) (exclude_titles : List String)
    (r : SynthesizedArticle)
    (h : fetch_multi_source_article strip urljoin "" gemini articles
        exclude_titles = some r) :
    r.bullets.Pairwise (fun a b => ¬ ((11 : ℚ) / 20 < tokenOverlapRatio a b)) := by
  unfold fetch_multi_source_article at h
  simp only [] at h
  split at h
  · exact absurd h (by simp)
  · rcases hfv : firstViableStory strip
        ((analyze_available_stories articles exclude_titles).take 5) with _ | ⟨st, ss⟩
    · rw [hfv] at h
      exact absurd h (by simp)
    · rw [hfv] at h
      simp only [] at h
      split at h
      · exact absurd h (by simp)
      · rw [Option.some_inj] at h
        have hb : r.bullets = extract_generalized_bullets strip "" gemini
            ss 7 st.group.headI.title := by rw [← h]
        rw [hb]
        exact extract_empty_key_pairwise strip gemini ss 7 st.group.headI.title

set_option maxRecDepth 8192 in
/-- C5, witness: the claim theorem applied to the concrete fallback-path
run of the witness scenario. -/
theorem claim_C5_witness :
    wResult.bullets.Pairwise (fun a b => ¬ ((11 : ℚ) / 20 < tokenOverlapRatio a b)) :=
  claim_C5_theorem id (fun _ u => u) (fun _ _ => []) [wArt1, wArt2] []
    wResult (by decide)

/-! Claim C7.  The candidate set and the digit/length bonuses are as
claimed, and candidates are considered in descending score order — but the
corpus-frequency term is *not* a sum over the sentence's constituent words:
the code tests `word in lower`, a substring check, so a corpus word hiding
inside a longer word of the sentence is counted too. -/

/-- A conditional foldl accumulation is the base plus the sum of the
selected entries. -/
theorem foldl_add_if_sum (freq : List (String × Nat)) (cond : String → Bool)
    (base : Nat) :
    freq.foldl (fun sc p => if cond p.1 then sc + p.2 else sc) base
      = base + (freq.map (fun p => if cond p.1 then p.2 else 0)).sum := by
  induction freq generalizing base with
  | nil => simp
  | cons p rest ih =>
      simp only [List.foldl_cons, List.map_cons, List.sum_cons]
      split
      · rw [ih]
        omega
      · rw [ih]
        omega

/-- C7, counterexample: on the `c7ss` corpus the first candidate sentence
scores 10 under the code's substring scoring (the corpus word `rain`,
frequency 3, occurs inside `training`) but 7 under the claim's
constituent-word scoring — the claim's score formula does not match the
code. -/
theorem claim_C7_counterexample :
    c7sentence ∈ fallbackCandidates (combinedFullText id c7ss)
    ∧ sentenceScore (corpusWordFreq (combinedFullText id c7ss)) c7sentence = 10
    ∧ claimConstituentScore (corpusWordFreq (combinedFullText id c7ss)) c7sentence = 7 := by
  refine ⟨by decide, by decide, by decide⟩

/-- C7, amended: the candidates are exactly the punctuation-split, trimmed
sentences of the combined cleaned text with length in [30, 200]; each
candidate's score is +2 for containing a digit, +1 for length in [60, 160],
plus the sum of the corpus-frequency entries whose *word occurs as a
substring of the lowercased sentence* (not restricted to the sentence's
constituent words, each entry counted once); and the candidates are then
considered in descending score order (stably sorted). -/
theorem claim_C7_theorem (full_text : String) :
    (∀ s, sentenceScore (corpusWordFreq full_text) s
        = (if s.data.any Char.isDigit then 2 else 0)
          + (if 60 ≤ s.length ∧ s.length ≤ 160 then 1 else 0)
          + ((corpusWordFreq full_text).map
              (fun p => if isSubCL p.1.data (strLower s).data then p.2 else 0)).sum)
    ∧ (fallbackSorted full_text).Perm (fallbackScored full_text)
    ∧ ((fallbackSorted full_text).map Prod.fst).Pairwise (fun a b => b ≤ a)
    ∧ fallbackCandidates full_text
      = ((splitSentences full_text).map strTrim).filter
          (fun s => decide (30 ≤ s.length) && decide (s.length ≤ 200)) := by
  refine ⟨?_, ?_, ?_, rfl⟩
  · intro s
    unfold sentenceScore
    simp only []
    exact foldl_add_if_sum _ (fun w => isSubCL w.data (strLower s).data) _
  · exact List.perm_insertionSort _ _
  · have htotal : IsTotal (Nat × String) (fun a b => b.1 ≤ a.1) :=
      ⟨fun a b => le_total b.1 a.1⟩
    have htrans : IsTrans (Nat × String) (fun a b => b.1 ≤ a.1) :=
      ⟨fun _ _ _ hab hbc => le_trans hbc hab⟩
    have hs := @List.sorted_insertionSort (Nat × String) (fun a b => b.1 ≤ a.1)
      (fun _ _ => inferInstance) htotal htrans (fallbackScored full_text)
    exact List.Pairwise.map Prod.fst (fun _ _ h => h) hs

/-! Claim C10: `_upgrade_image_resolution` always returns a string with no
`?` and no trailing `&` — the `[?&]+ → &` collapse eliminates every `?` and
the `rstrip('&?')` removes trailing separators. -/

/-- The separator collapse emits no `?`: every separator run becomes a
single `&`. -/
theorem collapseSeps_no_qmark (b : Bool) (l : List Char) :
    '?' ∉ collapseSepsAux b l := by
  induction l generalizing b with
  | nil => simp [collapseSepsAux]
  | cons c cs ih =>
      rw [collapseSepsAux]
      split
      · split
        · exact ih true
        · intro hmem
          rcases List.mem_cons.mp hmem with h | h
          · exact absurd h (by decide)
          · exact ih true h
      · rename_i hc
        intro hmem
        rcases List.mem_cons.mp hmem with h | h
        · rw [h] at hc
          simp at hc
        · exact ih false h

/-- The head surviving a `dropWhile` does not satisfy the predicate. -/
theorem dropWhile_head?_not (p : Char → Bool) (xs : List Char) (a : Char)
    (h : (xs.dropWhile p).head? = some a) : p a = false := by
  induction xs with
  | nil => simp [List.dropWhile] at h
  | cons c cs ih =>
      rw [List.dropWhile_cons] at h
      split at h
      · exact ih h
      · rename_i hc
        simp only [List.head?_cons, Option.some_inj] at h
        rw [← h]
        exact Bool.not_eq_true _ ▸ hc

/-- After the right-strip of `&`/`?`, the last character is not `&`. -/
theorem rstripSeps_getLast? (l : List Char) :
    (rstripSeps l).getLast? ≠ some '&' := by
  unfold rstripSeps
  rw [List.getLast?_reverse]
  intro h
  have := dropWhile_head?_not _ _ _ h
  simp at this

/-- Membership survives the right-strip backwards. -/
theorem mem_rstripSeps {x : Char} {l : List Char} (h : x ∈ rstripSeps l) :
    x ∈ l := by
  unfold rstripSeps at h
  rw [List.mem_reverse] at h
  exact List.mem_reverse.mp (List.Sublist.mem h (List.dropWhile_sublist _))

/-- C10: for every input string, the resolution-upgrade heuristic returns a
string containing no `?` character and not ending with `&`. -/
theorem claim_C10_theorem (s : String) :
    '?' ∉ (upgrade_image_resolution s).data
    ∧ (upgrade_image_resolution s).data.getLast? ≠ some '&' := by
  unfold upgrade_image_resolution
  split
  · rename_i hs
    rw [hs]
    constructor
    · simp [String.data]
    · simp [String.data]
  · simp only []
    rw [if_neg (rstripSeps_getLast? _)]
    refine ⟨?_, rstripSeps_getLast? _⟩
    intro hmem
    exact collapseSeps_no_qmark false _ (mem_rstripSeps hmem)

/-! Claim C9.  `_make_absolute_url` leaves a relative URL untouched when the
entry link (its base) is empty, so image candidates are not always
scheme-qualified; they are whenever the raw references are absolute or
protocol-relative, because the resolution-upgrade step preserves an
`http(s)://` prefix. -/

/-- The size-parameter scan leaves a separator-free prefix untouched. -/
theorem stripParamFuel_prefix (keys : List String) :
    ∀ (pre : List Char) (fuel : Nat) (l : List Char),
      (∀ c ∈ pre, c ≠ '?' ∧ c ≠ '&') →
      ∃ l', stripParamFuel keys fuel (pre ++ l) = pre ++ l' := by
  intro pre
  induction pre with
  | nil => exact fun fuel l _ => ⟨stripParamFuel keys fuel l, rfl⟩
  | cons c pre' ih =>
      intro fuel l hpre
      obtain ⟨hc1, hc2⟩ := hpre c (List.mem_cons_self c pre')
      cases fuel with
      | zero => exact ⟨l, rfl⟩
      | succ f =>
          rw [List.cons_append, stripParamFuel, if_neg (by simp [hc1, hc2])]
          obtain ⟨l', hl'⟩ := ih f l (fun d hd => hpre d (List.mem_cons_of_mem c hd))
          exact ⟨l', by rw [hl', List.cons_append]⟩

/-- All six size-parameter passes leave a separator-free prefix
untouched. -/
theorem stripSizeParams_prefix (pre : List Char)
    (hpre : ∀ c ∈ pre, c ≠ '?' ∧ c ≠ '&') (l : List Char) :
    ∃ l', stripSizeParams (pre ++ l) = pre ++ l' := by
  unfold stripSizeParams
  generalize sizeParamPatterns = pats
  induction pats generalizing l with
  | nil => exact ⟨l, rfl⟩
  | cons keys rest ih =>
      simp only [List.foldl_cons]
      obtain ⟨l1, h1⟩ := stripParamFuel_prefix keys pre (pre ++ l).length l hpre
      rw [show stripParamAux keys (pre ++ l) = pre ++ l1 from h1]
      exact ih l1

/-- A first-occurrence replacement steps over a non-matching head. -/
theorem replaceFirstL_cons_ne (old new : List Char) (c : Char) (cs : List Char)
    (h : old.isPrefixOf (c :: cs) = false) :
    replaceFirstL old new (c :: cs) = c :: replaceFirstL old new cs := by
  rw [replaceFirstL, if_neg (by simp [h])]

/-- A pattern whose head differs cannot be a prefix. -/
theorem isPrefixOf_cons_false (o c : Char) (t cs : List Char) (h : o ≠ c) :
    (o :: t).isPrefixOf (c :: cs) = false := by
  simp [List.isPrefixOf, h]

/-- A first-occurrence replacement skips a prefix free of the pattern's
head character. -/
theorem replaceFirstL_skip (o : Char) (t new : List Char) :
    ∀ (pre l : List Char), o ∉ pre →
      replaceFirstL (o :: t) new (pre ++ l) = pre ++ replaceFirstL (o :: t) new l := by
  intro pre
  induction pre with
  | nil => simp
  | cons c pre' ih =>
      intro l hpre
      have hoc : o ≠ c := fun he => hpre (he ▸ List.mem_cons_self c pre')
      rw [List.cons_append, replaceFirstL_cons_ne _ _ _ _ (isPrefixOf_cons_false o c t _ hoc),
        ih l (fun hm => hpre (List.mem_cons_of_mem c hm)), List.cons_append]

/-- Replacing a `/`-delimited segment by `/` keeps a leading `//` intact:
either the match is past it, or it starts at its second slash and the
replacement restores it. -/
theorem replaceFirstL_slashes (c₁ : Char) (t l : List Char) (hc : c₁ ≠ '/') :
    ∃ l', replaceFirstL ('/' :: c₁ :: t) ['/'] ('/' :: '/' :: l) = '/' :: '/' :: l' := by
  have h1 : ('/' :: c₁ :: t).isPrefixOf ('/' :: '/' :: l) = false := by
    simp [List.isPrefixOf, hc]
  rw [replaceFirstL_cons_ne _ _ _ _ h1]
  by_cases h2 : ('/' :: c₁ :: t).isPrefixOf ('/' :: l) = true
  · rw [replaceFirstL, if_pos h2]
    exact ⟨('/' :: l).drop ('/' :: c₁ :: t).length, rfl⟩
  · rw [replaceFirstL, if_neg h2]
    exact ⟨replaceFirstL ('/' :: c₁ :: t) ['/'] l, rfl⟩

/-- A slash-segment replacement pattern preserves an `http(s)://` prefix. -/
theorem slash_pat_preserves (c₁ : Char) (t : List Char) (hc : c₁ ≠ '/')
    (l : List Char) (h : hPreL l) :
    hPreL (replaceFirstL ('/' :: c₁ :: t) ['/'] l) := by
  rcases h with ⟨r, hr⟩ | ⟨r, hr⟩
  · subst hr
    obtain ⟨l', hl'⟩ := replaceFirstL_slashes c₁ t r hc
    refine Or.inl ⟨l', ?_⟩
    calc replaceFirstL ('/' :: c₁ :: t) ['/'] ("http://".data ++ r)
        = replaceFirstL ('/' :: c₁ :: t) ['/'] ("http:".data ++ ('/' :: '/' :: r)) := rfl
      _ = "http:".data ++ replaceFirstL ('/' :: c₁ :: t) ['/'] ('/' :: '/' :: r) :=
          replaceFirstL_skip '/' (c₁ :: t) ['/'] "http:".data ('/' :: '/' :: r) (by decide)
      _ = "http:".data ++ ('/' :: '/' :: l') := by rw [hl']
      _ = "http://".data ++ l' := rfl
  · subst hr
    obtain ⟨l', hl'⟩ := replaceFirstL_slashes c₁ t r hc
    refine Or.inr ⟨l', ?_⟩
    calc replaceFirstL ('/' :: c₁ :: t) ['/'] ("https://".data ++ r)
        = replaceFirstL ('/' :: c₁ :: t) ['/'] ("https:".data ++ ('/' :: '/' :: r)) := rfl
      _ = "https:".data ++ replaceFirstL ('/' :: c₁ :: t) ['/'] ('/' :: '/' :: r) :=
          replaceFirstL_skip '/' (c₁ :: t) ['/'] "https:".data ('/' :: '/' :: r) (by decide)
      _ = "https:".data ++ ('/' :: '/' :: l') := by rw [hl']
      _ = "https://".data ++ l' := rfl

/-- An underscore-prefixed replacement pattern preserves an `http(s)://`
prefix. -/
theorem underscore_pat_preserves (t new : List Char) (l : List Char)
    (h : hPreL l) : hPreL (replaceFirstL ('_' :: t) new l) := by
  rcases h with ⟨r, hr⟩ | ⟨r, hr⟩
  · subst hr
    rw [replaceFirstL_skip '_' t new "http://".data r (by decide)]
    exact Or.inl ⟨replaceFirstL ('_' :: t) new r, rfl⟩
  · subst hr
    rw [replaceFirstL_skip '_' t new "https://".data r (by decide)]
    exact Or.inr ⟨replaceFirstL ('_' :: t) new r, rfl⟩

/-- Every CDN replacement of the module — each pattern and its uppercase
variant — preserves an `http(s)://` prefix. -/
theorem cdnReplacements_preserve :
    ∀ p ∈ cdnReplacements, ∀ l, hPreL l →
      hPreL (replaceFirstL (p.1.map Char.toUpper) p.2 (replaceFirstL p.1 p.2 l)) := by
  intro p hp l hl
  fin_cases hp
  · exact slash_pat_preserves 'T' "HUMB/".data (by decide) _
      (slash_pat_preserves 't' "humb/".data (by decide) l hl)
  · exact slash_pat_preserves 'T' "HUMBNAIL/".data (by decide) _
      (slash_pat_preserves 't' "humbnail/".data (by decide) l hl)
  · exact slash_pat_preserves 'S' "MALL/".data (by decide) _
      (slash_pat_preserves 's' "mall/".data (by decide) l hl)
  · exact slash_pat_preserves 'M' "EDIUM/".data (by decide) _
      (slash_pat_preserves 'm' "edium/".data (by decide) l hl)
  · exact slash_pat_preserves 'L' "ARGE/".data (by decide) _
      (slash_pat_preserves 'l' "arge/".data (by decide) l hl)
  · exact underscore_pat_preserves "THUMB.".data _ _
      (underscore_pat_preserves "thumb.".data _ l hl)
  · exact underscore_pat_preserves "SMALL.".data _ _
      (underscore_pat_preserves "small.".data _ l hl)
  · exact underscore_pat_preserves "MEDIUM.".data _ _
      (underscore_pat_preserves "medium.".data _ l hl)
  · exact underscore_pat_preserves "LARGE.".data _ _
      (underscore_pat_preserves "large.".data _ l hl)

/-- The CDN replacement step preserves an `http(s)://` prefix. -/
theorem applyCdnReplacements_preserves :
    ∀ (reps : List (List Char × List Char)),
      (∀ p ∈ reps, ∀ l, hPreL l →
        hPreL (replaceFirstL (p.1.map Char.toUpper) p.2 (replaceFirstL p.1 p.2 l))) →
      ∀ l, hPreL l → hPreL (applyCdnReplacements l reps) := by
  intro reps
  induction reps with
  | nil => intro _ l hl; exact hl
  | cons p rest ih =>
      intro hgood l hl
      obtain ⟨old, new⟩ := p
      rw [applyCdnReplacements]
      split
      · exact hgood (old, new) (List.mem_cons_self _ _) l hl
      · exact ih (fun q hq => hgood q (List.mem_cons_of_mem _ hq)) l hl

/-- The separator collapse leaves a separator-free prefix untouched. -/
theorem collapseSeps_prefix :
    ∀ (pre l : List Char), (∀ c ∈ pre, c ≠ '?' ∧ c ≠ '&') →
      collapseSepsAux false (pre ++ l) = pre ++ collapseSepsAux false l := by
  intro pre
  induction pre with
  | nil => simp
  | cons c pre' ih =>
      intro l hpre
      obtain ⟨hc1, hc2⟩ := hpre c (List.mem_cons_self c pre')
      rw [List.cons_append, collapseSepsAux, if_neg (by simp [hc1, hc2]),
        ih l (fun d hd => hpre d (List.mem_cons_of_mem c hd)), List.cons_append]

/-- The right-strip of separators leaves the `http://` prefix in place. -/
theorem rstripSeps_http (l : List Char) :
    rstripSeps ("http://".data ++ l) = "http://".data ++ rstripSeps l := by
  unfold rstripSeps
  rw [List.reverse_append, List.dropWhile_append]
  split
  · rename_i hemp
    rw [List.isEmpty_iff] at hemp
    rw [hemp]
    decide
  · rw [List.reverse_append, List.reverse_reverse]

/-- The right-strip of separators leaves the `https://` prefix in place. -/
theorem rstripSeps_https (l : List Char) :
    rstripSeps ("https://".data ++ l) = "https://".data ++ rstripSeps l := by
  unfold rstripSeps
  rw [List.reverse_append, List.dropWhile_append]
  split
  · rename_i hemp
    rw [List.isEmpty_iff] at hemp
    rw [hemp]
    decide
  · rw [List.reverse_append, List.reverse_reverse]

/-- The resolution-upgrade heuristic preserves an `http(s)://` scheme
prefix. -/
theorem upgrade_preserves_http (u : String) (h : httpPrefix u) :
    httpPrefix (upgrade_image_resolution u) := by
  have hne : u ≠ "" := by
    rcases h with h | h <;>
      · intro he
        subst he
        simp [strStarts, List.isPrefixOf] at h
  have hpre : hPreL u.data := by
    rcases h with h | h
    · obtain ⟨t, ht⟩ := List.isPrefixOf_iff_prefix.mp h
      exact Or.inl ⟨t, ht.symm⟩
    · obtain ⟨t, ht⟩ := List.isPrefixOf_iff_prefix.mp h
      exact Or.inr ⟨t, ht.symm⟩
  unfold upgrade_image_resolution
  rw [if_neg hne]
  simp only []
  have hstrip : hPreL (stripSizeParams u.data) := by
    rcases hpre with ⟨r, hr⟩ | ⟨r, hr⟩
    · rw [hr]
      obtain ⟨l', hl'⟩ := stripSizeParams_prefix "http://".data (by decide) r
      exact Or.inl ⟨l', hl'⟩
    · rw [hr]
      obtain ⟨l', hl'⟩ := stripSizeParams_prefix "https://".data (by decide) r
      exact Or.inr ⟨l', hl'⟩
  have hcdn : hPreL (applyCdnReplacements (stripSizeParams u.data) cdnReplacements) :=
    applyCdnReplacements_preserves cdnReplacements cdnReplacements_preserve _ hstrip
  have hcoll : hPreL (collapseSepsAux false
      (applyCdnReplacements (stripSizeParams u.data) cdnReplacements)) := by
    rcases hcdn with ⟨r, hr⟩ | ⟨r, hr⟩
    · rw [hr, collapseSeps_prefix _ _ (by decide)]
      exact Or.inl ⟨_, rfl⟩
    · rw [hr, collapseSeps_prefix _ _ (by decide)]
      exact Or.inr ⟨_, rfl⟩
  have hrs : hPreL (rstripSeps (collapseSepsAux false
      (applyCdnReplacements (stripSizeParams u.data) cdnReplacements))) := by
    rcases hcoll with ⟨r, hr⟩ | ⟨r, hr⟩
    · rw [hr, rstripSeps_http]
      exact Or.inl ⟨_, rfl⟩
    · rw [hr, rstripSeps_https]
      exact Or.inr ⟨_, rfl⟩
  rw [if_neg (rstripSeps_getLast? _)]
  rcases hrs with ⟨r, hr⟩ | ⟨r, hr⟩
  · exact Or.inl (by rw [strStarts]; rw [hr]; exact List.isPrefixOf_iff_prefix.mpr ⟨r, rfl⟩)
  · exact Or.inr (by rw [strStarts]; rw [hr]; exact List.isPrefixOf_iff_prefix.mpr ⟨r, rfl⟩)

/-- `_make_absolute_url` yields a scheme-qualified URL for every non-empty
raw URL that is absolute or protocol-relative, regardless of base and
resolver. -/
theorem make_absolute_url_http (urljoin : String → String → String)
    (url base : String) (habs : absLike url) (hne : url ≠ "") :
    httpPrefix (make_absolute_url urljoin url base) := by
  rcases habs with h | h | h | h
  · exact absurd h hne
  · unfold make_absolute_url
    rw [if_neg hne, if_pos (by rw [h]; rfl)]
    exact Or.inl h
  · unfold make_absolute_url
    rw [if_neg hne, if_pos (by rw [h]; simp)]
    exact Or.inr h
  · have hsplit : ∃ r, url.data = '/' :: '/' :: r := by
      obtain ⟨t, ht⟩ := List.isPrefixOf_iff_prefix.mp h
      exact ⟨t, ht.symm⟩
    obtain ⟨r, hr⟩ := hsplit
    have hnothttp : strStarts url "http://" = false := by
      rw [strStarts, ← Bool.not_eq_true]
      intro hcon
      obtain ⟨t, ht⟩ := List.isPrefixOf_iff_prefix.mp hcon
      rw [hr] at ht
      simp [List.append_eq_cons_iff] at ht
    have hnothttps : strStarts url "https://" = false := by
      rw [strStarts, ← Bool.not_eq_true]
      intro hcon
      obtain ⟨t, ht⟩ := List.isPrefixOf_iff_prefix.mp hcon
      rw [hr] at ht
      simp [List.append_eq_cons_iff] at ht
    unfold make_absolute_url
    rw [if_neg hne, if_neg (by simp [hnothttp, hnothttps]), if_pos h]
    refine Or.inr ?_
    rw [strStarts]
    apply List.isPrefixOf_iff_prefix.mpr
    refine ⟨r, ?_⟩
    rw [String.data_append, hr]
    rfl

/-- C9, counterexample: an entry with an empty link and the relative
structured-media URL `/img/pic.png` yields that relative URL as its image
candidate — `_make_absolute_url` has no base to resolve against and
returns it unchanged, refuting the claim for arbitrary entries. -/
theorem claim_C9_counterexample :
    extract_image (fun _ u => u) c9Entry = some "/img/pic.png"
    ∧ ¬ httpPrefix "/img/pic.png" := by
  constructor
  · decide
  · decide

/-- C9, amended: every image candidate URL attached by `_extract_image` is
scheme-qualified (`http://` or `https://`) provided every raw image
reference of the entry is itself absolute or protocol-relative; a relative
reference on an entry with an empty link is attached unchanged. -/
theorem claim_C9_theorem (urljoin : String → String → String)
    (entry : FeedEntry) (u : String)
    (hmc : ∀ m ∈ entry.mediaContent, absLike m.url)
    (hth : ∀ m ∈ entry.mediaThumbnail, absLike m.url)
    (himg : ∀ i ∈ entry.summaryImgs,
      absLike i.src ∧ absLike i.dataSrc ∧ absLike i.dataLazySrc)
    (h : extract_image urljoin entry = some u) :
    httpPrefix u := by
  unfold extract_image at h
  simp only [] at h
  split at h
  · exact absurd h (by simp)
  · rename_i best rest hsort
    have hbest : best ∈
        (entry.mediaContent.filterMap (fun m =>
          if strStarts m.type "image" then
            if m.url ≠ "" then
              some { url := make_absolute_url urljoin m.url entry.link,
                     size := if m.width ≠ 0 ∧ m.height ≠ 0 then m.width * m.height else 100000,
                     tier := ImgTier.mediaContent, width := m.width, height := m.height : ImageCandidate }
            else none
          else none)
        ++ entry.mediaThumbnail.filterMap (fun m =>
          if m.url ≠ "" then
            some { url := make_absolute_url urljoin m.url entry.link,
                   size := if m.width ≠ 0 ∧ m.height ≠ 0 then m.width * m.height else 50000,
                   tier := ImgTier.thumbnail, width := m.width, height := m.height : ImageCandidate }
          else none)
        ++ entry.summaryImgs.filterMap (fun img =>
          let src := if img.src ≠ "" then img.src
            else if img.dataSrc ≠ "" then img.dataSrc else img.dataLazySrc
          if src ≠ "" then
            if 0 < img.width ∧ 0 < img.height ∧ (img.width < 100 ∨ img.height < 100) then none
            else
              some { url := make_absolute_url urljoin src entry.link,
                     size := if img.width ≠ 0 ∧ img.height ≠ 0 then img.width * img.height else 30000,
                     tier := ImgTier.html, width := img.width, height := img.height : ImageCandidate }
          else none)) := by
      rw [← List.mem_insertionSort
        (fun a b => imgKeyLe (imgKey b) (imgKey a) = true), hsort]
      exact List.mem_cons_self _ _
    have hurl : httpPrefix best.url := by
      rcases List.mem_append.mp hbest with hbest' | hm
      · rcases List.mem_append.mp hbest' with hm | hm
        · obtain ⟨m, hmem, hsome⟩ := List.mem_filterMap.mp hm
          split at hsome
          · split at hsome
            · rename_i hne
              rw [Option.some_inj] at hsome
              have hb : best.url = make_absolute_url urljoin m.url entry.link := by
                rw [← hsome]
              rw [hb]
              exact make_absolute_url_http urljoin m.url entry.link (hmc m hmem) hne
            · exact absurd hsome (by simp)
          · exact absurd hsome (by simp)
        · obtain ⟨m, hmem, hsome⟩ := List.mem_filterMap.mp hm
          split at hsome
          · rename_i hne
            rw [Option.some_inj] at hsome
            have hb : best.url = make_absolute_url urljoin m.url entry.link := by
              rw [← hsome]
            rw [hb]
            exact make_absolute_url_http urljoin m.url entry.link (hth m hmem) hne
          · exact absurd hsome (by simp)
      · obtain ⟨i, hmem, hsome⟩ := List.mem_filterMap.mp hm
        simp only [] at hsome
        obtain ⟨h1, h2, h3⟩ := himg i hmem
        by_cases e1 : i.src ≠ ""
        · rw [if_pos e1, if_pos e1] at hsome
          split at hsome
          · exact absurd hsome (by simp)
          · rw [Option.some_inj] at hsome
            have hb : best.url = make_absolute_url urljoin i.src entry.link := by
              rw [← hsome]
            rw [hb]
            exact make_absolute_url_http urljoin i.src entry.link h1 e1
        · rw [if_neg e1] at hsome
          by_cases e2 : i.dataSrc ≠ ""
          · rw [if_pos e2, if_pos e2] at hsome
            split at hsome
            · exact absurd hsome (by simp)
            · rw [Option.some_inj] at hsome
              have hb : best.url = make_absolute_url urljoin i.dataSrc entry.link := by
                rw [← hsome]
              rw [hb]
              exact make_absolute_url_http urljoin i.dataSrc entry.link h2 e2
          · rw [if_neg e2] at hsome
            by_cases e3 : i.dataLazySrc ≠ ""
            · rw [if_pos e3] at hsome
              split at hsome
              · exact absurd hsome (by simp)
              · rw [Option.some_inj] at hsome
                have hb : best.url = make_absolute_url urljoin i.dataLazySrc entry.link := by
                  rw [← hsome]
                rw [hb]
                exact make_absolute_url_http urljoin i.dataLazySrc entry.link h3 e3
            · rw [if_neg e3] at hsome
              exact absurd hsome (by simp)
    split at h
    · rw [Option.some_inj] at h
      rw [← h]
      exact upgrade_preserves_http _ hurl
    · rw [Option.some_inj] at h
      rw [← h]
      exact hurl

set_option maxRecDepth 4096 in
/-- C9, witness: the claim theorem applied to an entry whose only raw
reference is absolute. -/
theorem claim_C9_witness :
    httpPrefix "https://cdn.example/photo_thumb.jpg?width=300" :=
  claim_C9_theorem (fun _ u => u) c9AbsEntry
    "https://cdn.example/photo_thumb.jpg?width=300"
    (by decide) (by decide) (by decide) (by decide)
